import Mathlib

/-!
# xquery backend — shallow embedding and verification

This development embeds the backend of the xquery document-chat
application (tRPC routers `files` and `chat`, the SSE handler
`streamQuestion`, the OpenAI helper `getOrCreateAssistant`, and the
better-auth wrapper) as pure Lean functions over an explicit database
state.  External services (Supabase storage, the OpenAI API, UUID
generation) are modelled by oracle records that fix each external
response, and every operation additionally returns the list of external
effects it performed, in order, so that sequencing and idempotence
properties can be stated about the trace.

JavaScript truthiness checks on strings (`if (!openaiFileId)`,
`!chatRecord.title`, `if (cachedAssistantId)`) are modelled faithfully:
the empty string is falsy.
-/

namespace XQuery

/-- JS truthiness of a nullable string column: `null`/`undefined` and the
empty string are falsy. -/
def optStrTruthy : Option String → Bool
  | none => false
  | some s => s ≠ ""

/-- JS `a || b` for an optional string `a` (used for
`error?.message || "Assistant run failed"`). -/
def jsOrElse (a : Option String) (b : String) : String :=
  match a with
  | none => b
  | some s => if s ≠ "" then s else b

/-- Message role enum of the `chat_message.role` column. -/
inductive Role
  | user
  | assistant
deriving Repr, DecidableEq

/-- A row of the `file` table (columns used by the API). -/
structure FileRec where
  id : String
  userId : String
  name : String
  originalFilename : String
  mimeType : String
  size : Nat
  storagePath : String
  openaiFileId : Option String
deriving Repr, DecidableEq

/-- A row of the `chat` table (columns used by the API). -/
structure ChatRec where
  id : String
  userId : String
  fileId : String
  openaiThreadId : String
  title : Option String
deriving Repr, DecidableEq

/-- A row of the `chat_message` table (columns used by the API). -/
structure MessageRec where
  id : String
  chatId : String
  role : Role
  content : String
deriving Repr, DecidableEq

/-- The Postgres database state visible to the API. -/
structure DB where
  files : List FileRec
  chats : List ChatRec
  messages : List MessageRec
deriving Repr, DecidableEq

/-- `db.select().from(file).where(and(eq(file.id, fid), eq(file.userId, uid))).limit(1)`. -/
def selectFileScoped (db : DB) (fileId userId : String) : Option FileRec :=
  db.files.find? (fun f => f.id == fileId && f.userId == userId)

/-- `db.select().from(file).where(eq(file.id, fid)).limit(1)` (unscoped
lookup used by `streamQuestion`/`askQuestion` after the chat lookup). -/
def selectFileById (db : DB) (fileId : String) : Option FileRec :=
  db.files.find? (fun f => f.id == fileId)

/-- `db.select(...).from(chat).where(and(eq(chat.id, cid), eq(chat.userId, uid))).limit(1)`. -/
def selectChatScoped (db : DB) (chatId userId : String) : Option ChatRec :=
  db.chats.find? (fun c => c.id == chatId && c.userId == userId)

/-- `db.update(file).set({ openaiFileId }).where(eq(file.id, fid))`. -/
def updateFileOpenaiId (db : DB) (fileId oid : String) : DB :=
  { db with
    files := db.files.map (fun f =>
      if f.id == fileId then { f with openaiFileId := some oid } else f) }

/-- `db.update(chat).set({ title }).where(eq(chat.id, cid))`. -/
def updateChatTitle (db : DB) (chatId title : String) : DB :=
  { db with
    chats := db.chats.map (fun c =>
      if c.id == chatId then { c with title := some title } else c) }

/-- `db.insert(chatMessage).values(...)`. -/
def insertMessage (db : DB) (m : MessageRec) : DB :=
  { db with messages := db.messages ++ [m] }

/-- `db.select({ count: count() }).from(chatMessage).where(eq(chatMessage.chatId, cid))`. -/
def countMessages (db : DB) (chatId : String) : Nat :=
  (db.messages.filter (fun m => m.chatId == chatId)).length

/-- `db.delete(chat).where(and(eq(chat.id, cid), eq(chat.userId, uid))).returning({ id })`,
with the `onDelete: "cascade"` of `chat_message.chat_id`: the ids of the
deleted chats and the database after the delete. -/
def deleteChatScoped (db : DB) (chatId userId : String) : List String × DB :=
  let deleted := db.chats.filter (fun c => c.id == chatId && c.userId == userId)
  (deleted.map (fun c => c.id),
   { db with
     chats := db.chats.filter (fun c => !(c.id == chatId && c.userId == userId)),
     messages := db.messages.filter (fun m =>
       !(deleted.any (fun c => c.id == m.chatId))) })

/-- `db.delete(file).where(eq(file.id, fid))`, with the cascades of
`chat.file_id` and, transitively, `chat_message.chat_id`. -/
def deleteFileById (db : DB) (fileId : String) : DB :=
  let deletedChats := db.chats.filter (fun c => c.fileId == fileId)
  { db with
    files := db.files.filter (fun f => !(f.id == fileId)),
    chats := db.chats.filter (fun c => !(c.fileId == fileId)),
    messages := db.messages.filter (fun m =>
      !(deletedChats.any (fun c => c.id == m.chatId))) }

/-- `db.update(chat).set({ title }).where(and(eq(chat.id, cid), eq(chat.userId, uid))).returning({ id })`. -/
def renameChatScoped (db : DB) (chatId userId title : String) : List String × DB :=
  ((db.chats.filter (fun c => c.id == chatId && c.userId == userId)).map (fun c => c.id),
   { db with
     chats := db.chats.map (fun c =>
       if c.id == chatId && c.userId == userId then { c with title := some title } else c) })

/-- `db.update(file).set({ name }).where(and(eq(file.id, fid), eq(file.userId, uid))).returning({ id })`. -/
def renameFileScoped (db : DB) (fileId userId name : String) : List String × DB :=
  ((db.files.filter (fun f => f.id == fileId && f.userId == userId)).map (fun f => f.id),
   { db with
     files := db.files.map (fun f =>
       if f.id == fileId && f.userId == userId then { f with name := name } else f) })

/-- One external (database / storage / OpenAI) request performed by an
operation, recorded in the order the code awaits them. -/
inductive Effect
  | dbSelectChat (chatId userId : String)
  | dbSelectFile (fileId : String)
  | dbSelectFileScoped (fileId userId : String)
  | storageDownload (path : String)
  | openaiFileCreate (filename : String)
  | dbUpdateFileOpenaiId (fileId oid : String)
  | dbInsertMessage (id : String) (role : Role)
  | dbUpdateChatTitle (chatId title : String)
  | assistantLookup
  | assistantCreate
  | dbCountMessages (chatId : String)
  | threadMessageCreate (threadId : String) (withAttachment : Bool)
  | runStream (threadId : String)
  | runPoll (threadId : String)
  | listMessages (threadId : String)
  | storageRemove (path : String)
  | dbDeleteFile (fileId : String)
  | dbDeleteChat (chatId userId : String)
  | dbRenameChat (chatId userId : String)
  | dbRenameFile (fileId userId : String)
deriving Repr, DecidableEq

/-- A `TRPCError` thrown by a mutation/query. -/
structure TRPCErr where
  code : String
  message : String
deriving Repr, DecidableEq

/-- An SSE event yielded by `streamQuestion`. -/
inductive StreamEvent
  | status (message : String)
  | delta (content : String)
  | done (userMessageId assistantMessageId : String)
  | error (message : String)
deriving Repr, DecidableEq

/-- One content block of a `thread.message.delta` payload. -/
inductive ContentBlock
  | text (value : String)
  | nontext
deriving Repr, DecidableEq

/-- One step of iterating the OpenAI run stream: a delta event, a
`thread.run.failed` event (with its `last_error.message`), any other
event, or an exception thrown by the iteration itself (`some m` an
`Error` with message `m`, `none` a non-`Error` throw). -/
inductive RunItem
  | messageDelta (blocks : List ContentBlock)
  | runFailed (lastError : Option String)
  | otherEvent
  | thrown (errMessage : Option String)
deriving Repr, DecidableEq

/-- How the `for await` loop over the run stream ended. -/
inductive LoopExit
  | normal
  | failedEvent
  | threwExn
deriving Repr, DecidableEq

/-- The inner `for (const block of delta.content)` loop: appends each
truthy text block to the accumulator and yields a delta event for it. -/
def processBlocks : List ContentBlock → String → List StreamEvent × String
  | [], acc => ([], acc)
  | ContentBlock.text v :: rest, acc =>
      if v ≠ "" then
        let r := processBlocks rest (acc ++ v)
        (StreamEvent.delta v :: r.1, r.2)
      else
        processBlocks rest acc
  | ContentBlock.nontext :: rest, acc => processBlocks rest acc

/-- The `for await (const event of stream)` loop with its surrounding
`try`/`catch`: processes items in order, stops at a `thread.run.failed`
event (yielding an error event) or at a thrown exception (caught,
yielding an error event).  Returns the yielded events, the final
`fullContent` accumulator and how the loop exited. -/
def runStreamLoop : List RunItem → String → List StreamEvent × String × LoopExit
  | [], acc => ([], acc, LoopExit.normal)
  | RunItem.messageDelta blocks :: rest, acc =>
      let b := processBlocks blocks acc
      let r := runStreamLoop rest b.2
      (b.1 ++ r.1, r.2)
  | RunItem.runFailed e :: _, acc =>
      ([StreamEvent.error (jsOrElse e "Assistant run failed")], acc, LoopExit.failedEvent)
  | RunItem.otherEvent :: rest, acc => runStreamLoop rest acc
  | RunItem.thrown m :: _, acc =>
      ([StreamEvent.error (match m with
          | some s => s
          | none => "Stream failed unexpectedly")], acc, LoopExit.threwExn)

/-- External responses fixed for one `streamQuestion` execution:
whether the storage download succeeds, the file id returned by
`openai.files.create`, the two `crypto.randomUUID()` results, the
assistant id resolved by `getOrCreateAssistant`, and the run stream. -/
structure StreamOracle where
  downloadOk : Bool
  uploadedFileId : String
  userMessageId : String
  assistantId : String
  assistantMessageId : String
  runItems : List RunItem
deriving Repr, DecidableEq

/-- The input of `streamQuestion`. -/
structure StreamQuestionInput where
  userId : String
  chatId : String
  question : String
deriving Repr, DecidableEq

/-- The observable outcome of one `streamQuestion` execution: the SSE
events in yield order, the final database, and the external requests in
the order they were awaited. -/
structure StreamResult where
  events : List StreamEvent
  db : DB
  trace : List Effect
deriving Repr, DecidableEq

/-- `question.length > 30 ? question.substring(0, 30) + "..." : question`
(`streamQuestion` uses limit 30, `askQuestion` limit 50). -/
def deriveTitle (limit : Nat) (question : String) : String :=
  if question.length > limit then question.take limit ++ "..." else question

/-- `streamQuestion` from the user-message insert onward (the code after
the upload-if-needed stage, identical on both sync branches). -/
def streamCore (db : DB) (o : StreamOracle) (input : StreamQuestionInput)
    (chatRecord : ChatRec) : StreamResult :=
  let userMsg : MessageRec :=
    ⟨o.userMessageId, input.chatId, Role.user, input.question⟩
  let db1 := insertMessage db userMsg
  let isFirstMessage := !(optStrTruthy chatRecord.title)
  let title := deriveTitle 30 input.question
  let db2 := if isFirstMessage then updateChatTitle db1 input.chatId title else db1
  let titleTrace :=
    if isFirstMessage then [Effect.dbUpdateChatTitle input.chatId title] else []
  let cnt := countMessages db2 input.chatId
  let isFirstChatMessage := cnt ≤ 1
  let preEvents := [StreamEvent.status "Searching document..."]
  let preTrace :=
    Effect.dbInsertMessage o.userMessageId Role.user :: titleTrace ++
      [Effect.assistantLookup, Effect.dbCountMessages input.chatId,
       Effect.threadMessageCreate chatRecord.openaiThreadId isFirstChatMessage,
       Effect.runStream chatRecord.openaiThreadId]
  let loop := runStreamLoop o.runItems ""
  match loop.2.2 with
  | LoopExit.failedEvent => ⟨preEvents ++ loop.1, db2, preTrace⟩
  | LoopExit.threwExn => ⟨preEvents ++ loop.1, db2, preTrace⟩
  | LoopExit.normal =>
      if loop.2.1 = "" then
        ⟨preEvents ++ loop.1 ++
           [StreamEvent.error "No response received from assistant"],
         db2, preTrace⟩
      else
        let assistantMsg : MessageRec :=
          ⟨o.assistantMessageId, input.chatId, Role.assistant, loop.2.1⟩
        ⟨preEvents ++ loop.1 ++
           [StreamEvent.done o.userMessageId o.assistantMessageId],
         insertMessage db2 assistantMsg,
         preTrace ++ [Effect.dbInsertMessage o.assistantMessageId Role.assistant]⟩

/-- The `streamQuestion` async generator of
`packages/api/src/streaming.ts`. -/
def streamQuestion (db : DB) (o : StreamOracle) (input : StreamQuestionInput) :
    StreamResult :=
  let t0 := [Effect.dbSelectChat input.chatId input.userId]
  match selectChatScoped db input.chatId input.userId with
  | none => ⟨[StreamEvent.error "Chat not found"], db, t0⟩
  | some chatRecord =>
    let t1 := t0 ++ [Effect.dbSelectFile chatRecord.fileId]
    match selectFileById db chatRecord.fileId with
    | none => ⟨[StreamEvent.error "File not found"], db, t1⟩
    | some fileRecord =>
      if optStrTruthy fileRecord.openaiFileId then
        let r := streamCore db o input chatRecord
        ⟨r.events, r.db, t1 ++ r.trace⟩
      else
        let upEvents := [StreamEvent.status "Uploading file to AI..."]
        let t2 := t1 ++ [Effect.storageDownload fileRecord.storagePath]
        if o.downloadOk then
          let db1 := updateFileOpenaiId db chatRecord.fileId o.uploadedFileId
          let r := streamCore db1 o input chatRecord
          ⟨upEvents ++ r.events, r.db,
           t2 ++ [Effect.openaiFileCreate fileRecord.originalFilename,
                  Effect.dbUpdateFileOpenaiId chatRecord.fileId o.uploadedFileId] ++
             r.trace⟩
        else
          ⟨upEvents ++ [StreamEvent.error "Failed to download file from storage"],
           db, t2⟩

/-- The message returned by
`openai.beta.threads.messages.list(threadId, { order: "desc", limit: 1 })`
(i.e. `messages.data[0]`, when present). -/
structure ListedMessage where
  role : Role
  content : List ContentBlock
deriving Repr, DecidableEq

/-- External responses fixed for one `chatRouter.askQuestion` execution:
storage download success, the provider file id, the two
`crypto.randomUUID()` results, the assistant id, the status of the
polled run, and the newest thread message afterwards. -/
structure AskOracle where
  downloadOk : Bool
  uploadedFileId : String
  userMessageId : String
  assistantId : String
  runStatus : String
  listed : Option ListedMessage
  assistantMessageId : String
deriving Repr, DecidableEq

deriving instance DecidableEq for Except

/-- What `chatRouter.askQuestion` returns on success. -/
structure AskAnswer where
  answer : String
  userMessageId : String
  assistantMessageId : String
deriving Repr, DecidableEq

/-- The observable outcome of one `askQuestion` execution. -/
structure AskResult where
  result : Except TRPCErr AskAnswer
  db : DB
  trace : List Effect
deriving Repr, DecidableEq

/-- The first text content block of a listed message
(`assistantMessage.content.find((c) => c.type === "text")`). -/
def findTextBlock : List ContentBlock → Option String
  | [] => none
  | ContentBlock.text v :: _ => some v
  | ContentBlock.nontext :: rest => findTextBlock rest

/-- `askQuestion` from the user-message insert onward (the code after the
upload-if-needed stage; title limit 50, polled run, then a list of the
newest thread message). -/
def askCore (db : DB) (o : AskOracle) (chatId question : String)
    (chatRecord : ChatRec) : AskResult :=
  let userMsg : MessageRec := ⟨o.userMessageId, chatId, Role.user, question⟩
  let db1 := insertMessage db userMsg
  let isFirstMessage := !(optStrTruthy chatRecord.title)
  let title := deriveTitle 50 question
  let db2 := if isFirstMessage then updateChatTitle db1 chatId title else db1
  let titleTrace :=
    if isFirstMessage then [Effect.dbUpdateChatTitle chatId title] else []
  let cnt := countMessages db2 chatId
  let isFirstChatMessage := cnt ≤ 1
  let preTrace :=
    Effect.dbInsertMessage o.userMessageId Role.user :: titleTrace ++
      [Effect.assistantLookup, Effect.dbCountMessages chatId,
       Effect.threadMessageCreate chatRecord.openaiThreadId isFirstChatMessage,
       Effect.runPoll chatRecord.openaiThreadId]
  if o.runStatus ≠ "completed" then
    ⟨Except.error ⟨"INTERNAL_SERVER_ERROR",
       "Assistant run failed with status: " ++ o.runStatus⟩, db2, preTrace⟩
  else
    let listTrace := preTrace ++ [Effect.listMessages chatRecord.openaiThreadId]
    match o.listed with
    | none =>
        ⟨Except.error ⟨"INTERNAL_SERVER_ERROR", "No assistant response found"⟩,
         db2, listTrace⟩
    | some assistantMessage =>
        if assistantMessage.role ≠ Role.assistant then
          ⟨Except.error ⟨"INTERNAL_SERVER_ERROR", "No assistant response found"⟩,
           db2, listTrace⟩
        else
          match findTextBlock assistantMessage.content with
          | none =>
              ⟨Except.error ⟨"INTERNAL_SERVER_ERROR", "No text content in response"⟩,
               db2, listTrace⟩
          | some answer =>
              let assistantMsg : MessageRec :=
                ⟨o.assistantMessageId, chatId, Role.assistant, answer⟩
              ⟨Except.ok ⟨answer, o.userMessageId, o.assistantMessageId⟩,
               insertMessage db2 assistantMsg,
               listTrace ++ [Effect.dbInsertMessage o.assistantMessageId Role.assistant]⟩

/-- The `chatRouter.askQuestion` mutation (the chat-scoped version that
looks up the chat, syncs the file if needed, inserts the user message,
polls a run and persists the newest assistant message). -/
def askQuestion (db : DB) (o : AskOracle) (userId chatId question : String) :
    AskResult :=
  let t0 := [Effect.dbSelectChat chatId userId]
  match selectChatScoped db chatId userId with
  | none => ⟨Except.error ⟨"NOT_FOUND", "Chat not found"⟩, db, t0⟩
  | some chatRecord =>
    let t1 := t0 ++ [Effect.dbSelectFile chatRecord.fileId]
    match selectFileById db chatRecord.fileId with
    | none => ⟨Except.error ⟨"NOT_FOUND", "File not found"⟩, db, t1⟩
    | some fileRecord =>
      if optStrTruthy fileRecord.openaiFileId then
        let r := askCore db o chatId question chatRecord
        ⟨r.result, r.db, t1 ++ r.trace⟩
      else
        let t2 := t1 ++ [Effect.storageDownload fileRecord.storagePath]
        if o.downloadOk then
          let db1 := updateFileOpenaiId db chatRecord.fileId o.uploadedFileId
          let r := askCore db1 o chatId question chatRecord
          ⟨r.result, r.db,
           t2 ++ [Effect.openaiFileCreate fileRecord.originalFilename,
                  Effect.dbUpdateFileOpenaiId chatRecord.fileId o.uploadedFileId] ++
             r.trace⟩
        else
          ⟨Except.error ⟨"INTERNAL_SERVER_ERROR",
             "Failed to download file from storage"⟩, db, t2⟩

/-- External responses fixed for one `syncFileToOpenAI` execution. -/
structure SyncOracle where
  downloadOk : Bool
  uploadedFileId : String
deriving Repr, DecidableEq

/-- What `syncFileToOpenAI` returns on success. -/
structure SyncAnswer where
  openaiFileId : String
  alreadySynced : Bool
deriving Repr, DecidableEq

/-- The observable outcome of one `syncFileToOpenAI` execution. -/
structure SyncResult where
  result : Except TRPCErr SyncAnswer
  db : DB
  trace : List Effect
deriving Repr, DecidableEq

/-- The `chatRouter.syncFileToOpenAI` mutation. -/
def syncFileToOpenAI (db : DB) (o : SyncOracle) (userId fileId : String) :
    SyncResult :=
  let t0 := [Effect.dbSelectFileScoped fileId userId]
  match selectFileScoped db fileId userId with
  | none => ⟨Except.error ⟨"NOT_FOUND", "File not found"⟩, db, t0⟩
  | some fileRecord =>
    if optStrTruthy fileRecord.openaiFileId then
      ⟨Except.ok ⟨fileRecord.openaiFileId.getD "", true⟩, db, t0⟩
    else
      let t1 := t0 ++ [Effect.storageDownload fileRecord.storagePath]
      if o.downloadOk then
        ⟨Except.ok ⟨o.uploadedFileId, false⟩,
         updateFileOpenaiId db fileId o.uploadedFileId,
         t1 ++ [Effect.openaiFileCreate fileRecord.originalFilename,
                Effect.dbUpdateFileOpenaiId fileId o.uploadedFileId]⟩
      else
        ⟨Except.error ⟨"INTERNAL_SERVER_ERROR",
           "Failed to download file from storage"⟩, db, t1⟩

/-- The `filesRouter.get` query. -/
def filesGet (db : DB) (userId fileId : String) :
    Except TRPCErr FileRec × DB × List Effect :=
  match selectFileScoped db fileId userId with
  | none => (Except.error ⟨"NOT_FOUND", "File not found"⟩, db,
             [Effect.dbSelectFileScoped fileId userId])
  | some fileRecord => (Except.ok fileRecord, db,
             [Effect.dbSelectFileScoped fileId userId])

/-- The `filesRouter.delete` mutation: scoped lookup, storage removal
(whose error is only logged), then the database delete.  `removeOk` is
the storage response. -/
def filesDelete (db : DB) (_removeOk : Bool) (userId fileId : String) :
    Except TRPCErr Bool × DB × List Effect :=
  let t0 := [Effect.dbSelectFileScoped fileId userId]
  match selectFileScoped db fileId userId with
  | none => (Except.error ⟨"NOT_FOUND", "File not found"⟩, db, t0)
  | some fileRecord =>
      -- a storage error is caught by the `if (storageError)` branch,
      -- logged with console.error, and execution continues
      (Except.ok true, deleteFileById db fileId,
       t0 ++ [Effect.storageRemove fileRecord.storagePath,
              Effect.dbDeleteFile fileId])

/-- The `filesRouter.rename` mutation. -/
def filesRename (db : DB) (userId fileId name : String) :
    Except TRPCErr Bool × DB × List Effect :=
  let r := renameFileScoped db fileId userId name
  if r.1.isEmpty then
    (Except.error ⟨"NOT_FOUND", "File not found"⟩, db,
     [Effect.dbRenameFile fileId userId])
  else
    (Except.ok true, r.2, [Effect.dbRenameFile fileId userId])

/-- The `chatRouter.delete` mutation. -/
def chatDelete (db : DB) (userId chatId : String) :
    Except TRPCErr Bool × DB × List Effect :=
  let r := deleteChatScoped db chatId userId
  if r.1.isEmpty then
    (Except.error ⟨"NOT_FOUND", "Chat not found"⟩, db,
     [Effect.dbDeleteChat chatId userId])
  else
    (Except.ok true, r.2, [Effect.dbDeleteChat chatId userId])

/-- The `chatRouter.rename` mutation. -/
def chatRename (db : DB) (userId chatId title : String) :
    Except TRPCErr Bool × DB × List Effect :=
  let r := renameChatScoped db chatId userId title
  if r.1.isEmpty then
    (Except.error ⟨"NOT_FOUND", "Chat not found"⟩, db,
     [Effect.dbRenameChat chatId userId])
  else
    (Except.ok true, r.2, [Effect.dbRenameChat chatId userId])

/-- The module-level mutable state of `packages/api/src/lib/openai.ts`:
`let cachedAssistantId: string | null = null`. -/
structure AssistantCache where
  cachedAssistantId : Option String
deriving Repr, DecidableEq

/-- The part of `getOrCreateAssistant` after the cache check: consult
`process.env.OPENAI_ASSISTANT_ID`, otherwise create an assistant
(`createdId` is the id the provider returns). -/
def resolveAssistant (envAssistantId : Option String) (createdId : String) :
    String × AssistantCache × List Effect :=
  if optStrTruthy envAssistantId then
    (envAssistantId.getD "", ⟨envAssistantId⟩, [])
  else
    (createdId, ⟨some createdId⟩, [Effect.assistantCreate])

/-- `getOrCreateAssistant` of `packages/api/src/lib/openai.ts`: returns
the assistant id, the new module cache state, and the provider requests
issued. -/
def getOrCreateAssistant (cache : AssistantCache) (envAssistantId : Option String)
    (createdId : String) : String × AssistantCache × List Effect :=
  if optStrTruthy cache.cachedAssistantId then
    (cache.cachedAssistantId.getD "", cache, [])
  else
    resolveAssistant envAssistantId createdId

/-- An authentication request handled by the `/api/auth/*` routes. -/
inductive AuthRequest
  | signUp (invitationCode : Option String)
  | signIn
  | session
deriving Repr, DecidableEq

/-- The outcome of an authentication request. -/
inductive AuthOutcome
  | ok
  | apiError (code message : String)
deriving Repr, DecidableEq

/-- `const VALID_INVITATION_CODE = "xenet.ai"` of `packages/auth/src/index.ts`. -/
def validInvitationCode : String := "xenet.ai"

/-- The `databaseHooks.user.create.before` hook of
`packages/auth/src/index.ts`: throws `APIError("FORBIDDEN")` unless the
request body carries the valid invitation code. -/
def userCreateBeforeHook (invitationCode : Option String) : Option AuthOutcome :=
  if invitationCode = some validInvitationCode then none
  else some (AuthOutcome.apiError "FORBIDDEN" "Invalid invitation code")

/-- The configured `betterAuth` handler: `lib` is the underlying auth
library's outcome for each request; the wrapper threads sign-in and
session requests straight through and runs the user-create hook before a
sign-up creates its user. -/
def authHandler (lib : AuthRequest → AuthOutcome) (r : AuthRequest) : AuthOutcome :=
  match r with
  | AuthRequest.signUp code =>
      match userCreateBeforeHook code with
      | some err => err
      | none => lib r
  | AuthRequest.signIn => lib r
  | AuthRequest.session => lib r

/-- The body validation of the `/api/chat/stream` route in
`apps/server/src/index.ts`: `if (!(body.chatId && body.question))`
responds 400 before `streamQuestion` ever runs. -/
def streamEndpointAccepts (chatId question : String) : Bool :=
  chatId ≠ "" && question ≠ ""

/-- The concatenation, in yield order, of the `content` fields of the
delta events in an event list. -/
def concatDeltas : List StreamEvent → String
  | [] => ""
  | StreamEvent.delta c :: rest => c ++ concatDeltas rest
  | StreamEvent.status _ :: rest => concatDeltas rest
  | StreamEvent.done _ _ :: rest => concatDeltas rest
  | StreamEvent.error _ :: rest => concatDeltas rest

/-- The phase of the streaming orchestration an external request belongs
to: 0 database lookups, 1 upload-if-needed, 2 user-message creation and
its bookkeeping, 3 the assistant run, 4 persisting the result. -/
def phaseOf : Effect → Nat
  | Effect.dbSelectChat _ _ => 0
  | Effect.dbSelectFile _ => 0
  | Effect.dbSelectFileScoped _ _ => 0
  | Effect.storageDownload _ => 1
  | Effect.openaiFileCreate _ => 1
  | Effect.dbUpdateFileOpenaiId _ _ => 1
  | Effect.dbInsertMessage _ Role.user => 2
  | Effect.dbInsertMessage _ Role.assistant => 4
  | Effect.dbUpdateChatTitle _ _ => 2
  | Effect.assistantLookup => 2
  | Effect.assistantCreate => 2
  | Effect.dbCountMessages _ => 2
  | Effect.threadMessageCreate _ _ => 2
  | Effect.runStream _ => 3
  | Effect.runPoll _ => 3
  | Effect.listMessages _ => 3
  | Effect.storageRemove _ => 1
  | Effect.dbDeleteFile _ => 2
  | Effect.dbDeleteChat _ _ => 2
  | Effect.dbRenameChat _ _ => 2
  | Effect.dbRenameFile _ _ => 2

/-- An effect trace respects the phase order: no effect of a later phase
occurs before one of an earlier phase. -/
def phasesSorted (t : List Effect) : Prop :=
  List.Chain' (fun a b => phaseOf a ≤ phaseOf b) t

section Lemmas

theorem concatDeltas_append (l₁ l₂ : List StreamEvent) :
    concatDeltas (l₁ ++ l₂) = concatDeltas l₁ ++ concatDeltas l₂ := by
  induction l₁ with
  | nil => simp [concatDeltas]
  | cons e rest ih =>
      cases e <;> simp [concatDeltas, ih, String.append_assoc]

theorem concatDeltas_of_no_delta (l : List StreamEvent)
    (h : ∀ c, StreamEvent.delta c ∉ l) : concatDeltas l = "" := by
  induction l with
  | nil => rfl
  | cons e rest ih =>
      have hrest : ∀ c, StreamEvent.delta c ∉ rest := by
        intro c hc
        exact h c (List.mem_cons_of_mem _ hc)
      cases e with
      | delta c => exact absurd (List.mem_cons_self _ _) (h c)
      | status m => simpa [concatDeltas] using ih hrest
      | done u a => simpa [concatDeltas] using ih hrest
      | error m => simpa [concatDeltas] using ih hrest

theorem processBlocks_events_delta (blocks : List ContentBlock) (acc : String) :
    ∀ e ∈ (processBlocks blocks acc).1, ∃ c, e = StreamEvent.delta c := by
  induction blocks generalizing acc with
  | nil => simp [processBlocks]
  | cons b rest ih =>
      cases b with
      | text v =>
          by_cases hv : v ≠ ""
          · intro e he
            simp only [processBlocks, if_pos hv] at he
            rcases List.mem_cons.mp he with h | h
            · exact ⟨v, h⟩
            · exact ih (acc ++ v) e h
          · intro e he
            simp only [processBlocks, if_neg hv] at he
            exact ih acc e he
      | nontext =>
          intro e he
          simp only [processBlocks] at he
          exact ih acc e he

theorem processBlocks_content (blocks : List ContentBlock) (acc : String) :
    (processBlocks blocks acc).2 = acc ++ concatDeltas (processBlocks blocks acc).1 := by
  induction blocks generalizing acc with
  | nil => simp [processBlocks, concatDeltas]
  | cons b rest ih =>
      cases b with
      | text v =>
          by_cases hv : v ≠ ""
          · simp only [processBlocks, if_pos hv, concatDeltas]
            rw [ih (acc ++ v), String.append_assoc]
          · simp only [processBlocks, if_neg hv]
            exact ih acc
      | nontext =>
          simp only [processBlocks]
          exact ih acc

theorem runStreamLoop_content (items : List RunItem) (acc : String) :
    (runStreamLoop items acc).2.1 = acc ++ concatDeltas (runStreamLoop items acc).1 := by
  induction items generalizing acc with
  | nil => simp [runStreamLoop, concatDeltas]
  | cons it rest ih =>
      cases it with
      | messageDelta blocks =>
          simp only [runStreamLoop, concatDeltas_append]
          rw [ih (processBlocks blocks acc).2, processBlocks_content blocks acc,
            String.append_assoc]
      | runFailed e => simp [runStreamLoop, concatDeltas]
      | otherEvent =>
          simp only [runStreamLoop]
          exact ih acc
      | thrown m => simp [runStreamLoop, concatDeltas]

theorem runStreamLoop_no_done (items : List RunItem) (acc : String) (u a : String) :
    StreamEvent.done u a ∉ (runStreamLoop items acc).1 := by
  induction items generalizing acc with
  | nil => simp [runStreamLoop]
  | cons it rest ih =>
      cases it with
      | messageDelta blocks =>
          simp only [runStreamLoop, List.mem_append]
          rintro (h | h)
          · rcases processBlocks_events_delta blocks acc _ h with ⟨c, hc⟩
            exact StreamEvent.noConfusion hc
          · exact ih (processBlocks blocks acc).2 h
      | runFailed e => simp [runStreamLoop]
      | otherEvent =>
          simp only [runStreamLoop]
          exact ih acc
      | thrown m => simp [runStreamLoop]

theorem runStreamLoop_error_of_not_normal (items : List RunItem) (acc : String)
    (h : (runStreamLoop items acc).2.2 ≠ LoopExit.normal) :
    ∃ m, StreamEvent.error m ∈ (runStreamLoop items acc).1 := by
  induction items generalizing acc with
  | nil => simp [runStreamLoop] at h
  | cons it rest ih =>
      cases it with
      | messageDelta blocks =>
          simp only [runStreamLoop] at h ⊢
          rcases ih (processBlocks blocks acc).2 h with ⟨m, hm⟩
          exact ⟨m, List.mem_append.mpr (Or.inr hm)⟩
      | runFailed e => exact ⟨jsOrElse e "Assistant run failed", by simp [runStreamLoop]⟩
      | otherEvent =>
          simp only [runStreamLoop] at h ⊢
          exact ih acc h
      | thrown m =>
          cases m with
          | some s => exact ⟨s, by simp [runStreamLoop]⟩
          | none => exact ⟨"Stream failed unexpectedly", by simp [runStreamLoop]⟩

theorem runStreamLoop_delta_of_mem (items : List RunItem) (acc : String) :
    ∀ e ∈ (runStreamLoop items acc).1,
      (∃ c, e = StreamEvent.delta c) ∨ (∃ m, e = StreamEvent.error m) := by
  induction items generalizing acc with
  | nil => simp [runStreamLoop]
  | cons it rest ih =>
      cases it with
      | messageDelta blocks =>
          intro e he
          simp only [runStreamLoop, List.mem_append] at he
          rcases he with h | h
          · exact Or.inl (processBlocks_events_delta blocks acc e h)
          · exact ih (processBlocks blocks acc).2 e h
      | runFailed err =>
          intro e he
          simp only [runStreamLoop, List.mem_singleton] at he
          exact Or.inr ⟨_, he⟩
      | otherEvent =>
          intro e he
          simp only [runStreamLoop] at he
          exact ih acc e he
      | thrown m =>
          intro e he
          simp only [runStreamLoop, List.mem_singleton] at he
          exact Or.inr ⟨_, he⟩

theorem messages_updateChatTitle (db : DB) (c t : String) :
    (updateChatTitle db c t).messages = db.messages := rfl

theorem messages_updateFileOpenaiId (db : DB) (f oid : String) :
    (updateFileOpenaiId db f oid).messages = db.messages := rfl

theorem chats_updateFileOpenaiId (db : DB) (f oid : String) :
    (updateFileOpenaiId db f oid).chats = db.chats := rfl

theorem chats_insertMessage (db : DB) (m : MessageRec) :
    (insertMessage db m).chats = db.chats := rfl

theorem countMessages_updateChatTitle (db : DB) (c t cid : String) :
    countMessages (updateChatTitle db c t) cid = countMessages db cid := rfl

theorem countMessages_updateFileOpenaiId (db : DB) (f oid cid : String) :
    countMessages (updateFileOpenaiId db f oid) cid = countMessages db cid := rfl

theorem countMessages_insert_same (db : DB) (id cid : String) (r : Role) (ct : String) :
    countMessages (insertMessage db ⟨id, cid, r, ct⟩) cid = countMessages db cid + 1 := by
  simp [countMessages, insertMessage, List.filter_append]

/-- Inserting a user-role message does not change the assistant-role
messages of the database. -/
theorem filter_assistant_insert_user (db : DB) (id cid ct : String) :
    (insertMessage db ⟨id, cid, Role.user, ct⟩).messages.filter
        (fun m => m.role == Role.assistant) =
      db.messages.filter (fun m => m.role == Role.assistant) := by
  simp [insertMessage, List.filter_append]

/-- A scoped file lookup still finds the file (with the new id recorded)
after `updateFileOpenaiId` on that file. -/
theorem selectFileScoped_update (db : DB) (fid uid oid : String) (f : FileRec)
    (h : selectFileScoped db fid uid = some f) :
    selectFileScoped (updateFileOpenaiId db fid oid) fid uid =
      some { f with openaiFileId := some oid } := by
  unfold selectFileScoped updateFileOpenaiId at *
  rw [List.find?_map]
  have hpred : (fun x : FileRec => x.id == fid && x.userId == uid) ∘
      (fun x : FileRec => if x.id == fid then { x with openaiFileId := some oid } else x) =
      fun x : FileRec => x.id == fid && x.userId == uid := by
    funext x
    by_cases hx : x.id = fid <;> simp [hx]
  rw [hpred, h]
  have hid : f.id == fid := by
    have := List.find?_some h
    exact (Bool.and_elim_left this)
  have hid' : f.id = fid := by simpa using hid
  simp [hid']

end Lemmas

section CoreEquations

/-- Unfolding of `streamCore` when the run stream ends without a
`thread.run.failed` event or exception and produced content. -/
theorem streamCore_of_normal_ne (db : DB) (o : StreamOracle)
    (input : StreamQuestionInput) (c : ChatRec)
    (h1 : (runStreamLoop o.runItems "").2.2 = LoopExit.normal)
    (h2 : ¬ (runStreamLoop o.runItems "").2.1 = "") :
    streamCore db o input c =
      ⟨StreamEvent.status "Searching document..." :: (runStreamLoop o.runItems "").1 ++
         [StreamEvent.done o.userMessageId o.assistantMessageId],
       insertMessage
         (if !(optStrTruthy c.title) then
            updateChatTitle
              (insertMessage db ⟨o.userMessageId, input.chatId, Role.user, input.question⟩)
              input.chatId (deriveTitle 30 input.question)
          else
            insertMessage db ⟨o.userMessageId, input.chatId, Role.user, input.question⟩)
         ⟨o.assistantMessageId, input.chatId, Role.assistant,
          (runStreamLoop o.runItems "").2.1⟩,
       Effect.dbInsertMessage o.userMessageId Role.user ::
         (if !(optStrTruthy c.title) then
            [Effect.dbUpdateChatTitle input.chatId (deriveTitle 30 input.question)]
          else []) ++
         [Effect.assistantLookup, Effect.dbCountMessages input.chatId,
          Effect.threadMessageCreate c.openaiThreadId
            (decide (countMessages db input.chatId + 1 ≤ 1)),
          Effect.runStream c.openaiThreadId,
          Effect.dbInsertMessage o.assistantMessageId Role.assistant]⟩ := by
  simp only [streamCore]
  rw [h1]
  by_cases ht : optStrTruthy c.title = true <;>
    simp [ht, h2, countMessages_updateChatTitle, countMessages_insert_same,
      List.append_assoc]

/-- Unfolding of `streamCore` when the run stream hit a
`thread.run.failed` event or threw. -/
theorem streamCore_of_not_normal (db : DB) (o : StreamOracle)
    (input : StreamQuestionInput) (c : ChatRec)
    (h1 : ¬ (runStreamLoop o.runItems "").2.2 = LoopExit.normal) :
    streamCore db o input c =
      ⟨StreamEvent.status "Searching document..." :: (runStreamLoop o.runItems "").1,
       (if !(optStrTruthy c.title) then
          updateChatTitle
            (insertMessage db ⟨o.userMessageId, input.chatId, Role.user, input.question⟩)
            input.chatId (deriveTitle 30 input.question)
        else
          insertMessage db ⟨o.userMessageId, input.chatId, Role.user, input.question⟩),
       Effect.dbInsertMessage o.userMessageId Role.user ::
         (if !(optStrTruthy c.title) then
            [Effect.dbUpdateChatTitle input.chatId (deriveTitle 30 input.question)]
          else []) ++
         [Effect.assistantLookup, Effect.dbCountMessages input.chatId,
          Effect.threadMessageCreate c.openaiThreadId
            (decide (countMessages db input.chatId + 1 ≤ 1)),
          Effect.runStream c.openaiThreadId]⟩ := by
  simp only [streamCore]
  rcases hx : (runStreamLoop o.runItems "").2.2 with _ | _ | _
  · exact absurd hx h1
  all_goals by_cases ht : optStrTruthy c.title = true <;>
    simp [ht, countMessages_updateChatTitle, countMessages_insert_same,
      List.append_assoc]

/-- Unfolding of `streamCore` when the run stream ended normally but no
text content was received. -/
theorem streamCore_of_empty (db : DB) (o : StreamOracle)
    (input : StreamQuestionInput) (c : ChatRec)
    (h1 : (runStreamLoop o.runItems "").2.2 = LoopExit.normal)
    (h2 : (runStreamLoop o.runItems "").2.1 = "") :
    streamCore db o input c =
      ⟨StreamEvent.status "Searching document..." :: (runStreamLoop o.runItems "").1 ++
         [StreamEvent.error "No response received from assistant"],
       (if !(optStrTruthy c.title) then
          updateChatTitle
            (insertMessage db ⟨o.userMessageId, input.chatId, Role.user, input.question⟩)
            input.chatId (deriveTitle 30 input.question)
        else
          insertMessage db ⟨o.userMessageId, input.chatId, Role.user, input.question⟩),
       Effect.dbInsertMessage o.userMessageId Role.user ::
         (if !(optStrTruthy c.title) then
            [Effect.dbUpdateChatTitle input.chatId (deriveTitle 30 input.question)]
          else []) ++
         [Effect.assistantLookup, Effect.dbCountMessages input.chatId,
          Effect.threadMessageCreate c.openaiThreadId
            (decide (countMessages db input.chatId + 1 ≤ 1)),
          Effect.runStream c.openaiThreadId]⟩ := by
  simp only [streamCore]
  rw [h1]
  by_cases ht : optStrTruthy c.title = true <;>
    simp [ht, h2, countMessages_updateChatTitle, countMessages_insert_same,
      List.append_assoc]

/-- Unfolding of `askCore` when the polled run did not complete. -/
theorem askCore_of_incomplete (db : DB) (o : AskOracle) (chatId question : String)
    (c : ChatRec) (h : ¬ o.runStatus = "completed") :
    askCore db o chatId question c =
      ⟨Except.error ⟨"INTERNAL_SERVER_ERROR",
         "Assistant run failed with status: " ++ o.runStatus⟩,
       (if !(optStrTruthy c.title) then
          updateChatTitle
            (insertMessage db ⟨o.userMessageId, chatId, Role.user, question⟩)
            chatId (deriveTitle 50 question)
        else
          insertMessage db ⟨o.userMessageId, chatId, Role.user, question⟩),
       Effect.dbInsertMessage o.userMessageId Role.user ::
         (if !(optStrTruthy c.title) then
            [Effect.dbUpdateChatTitle chatId (deriveTitle 50 question)]
          else []) ++
         [Effect.assistantLookup, Effect.dbCountMessages chatId,
          Effect.threadMessageCreate c.openaiThreadId
            (decide (countMessages db chatId + 1 ≤ 1)),
          Effect.runPoll c.openaiThreadId]⟩ := by
  simp only [askCore]
  by_cases ht : optStrTruthy c.title = true <;>
    simp [ht, h, countMessages_updateChatTitle, countMessages_insert_same,
      List.append_assoc]

/-- Unfolding of `askCore` when the run completed and the newest thread
message is an assistant message with a text block. -/
theorem askCore_of_ok (db : DB) (o : AskOracle) (chatId question : String)
    (c : ChatRec) (am : ListedMessage) (ans : String)
    (h1 : o.runStatus = "completed") (h2 : o.listed = some am)
    (h3 : am.role = Role.assistant) (h4 : findTextBlock am.content = some ans) :
    askCore db o chatId question c =
      ⟨Except.ok ⟨ans, o.userMessageId, o.assistantMessageId⟩,
       insertMessage
         (if !(optStrTruthy c.title) then
            updateChatTitle
              (insertMessage db ⟨o.userMessageId, chatId, Role.user, question⟩)
              chatId (deriveTitle 50 question)
          else
            insertMessage db ⟨o.userMessageId, chatId, Role.user, question⟩)
         ⟨o.assistantMessageId, chatId, Role.assistant, ans⟩,
       Effect.dbInsertMessage o.userMessageId Role.user ::
         (if !(optStrTruthy c.title) then
            [Effect.dbUpdateChatTitle chatId (deriveTitle 50 question)]
          else []) ++
         [Effect.assistantLookup, Effect.dbCountMessages chatId,
          Effect.threadMessageCreate c.openaiThreadId
            (decide (countMessages db chatId + 1 ≤ 1)),
          Effect.runPoll c.openaiThreadId, Effect.listMessages c.openaiThreadId,
          Effect.dbInsertMessage o.assistantMessageId Role.assistant]⟩ := by
  simp only [askCore]
  rw [h2]
  by_cases ht : optStrTruthy c.title = true <;>
    simp [ht, h1, h3, h4, countMessages_updateChatTitle, countMessages_insert_same,
      List.append_assoc]

/-- Unfolding of `askCore` when the run completed but no usable assistant
message came back (none listed, wrong role, or no text block). -/
theorem askCore_of_bad_listed (db : DB) (o : AskOracle) (chatId question : String)
    (c : ChatRec) (msg : String)
    (h1 : o.runStatus = "completed")
    (h2 : (o.listed = none ∧ msg = "No assistant response found") ∨
      (∃ am, o.listed = some am ∧ ¬ am.role = Role.assistant ∧
        msg = "No assistant response found") ∨
      (∃ am, o.listed = some am ∧ am.role = Role.assistant ∧
        findTextBlock am.content = none ∧ msg = "No text content in response")) :
    askCore db o chatId question c =
      ⟨Except.error ⟨"INTERNAL_SERVER_ERROR", msg⟩,
       (if !(optStrTruthy c.title) then
          updateChatTitle
            (insertMessage db ⟨o.userMessageId, chatId, Role.user, question⟩)
            chatId (deriveTitle 50 question)
        else
          insertMessage db ⟨o.userMessageId, chatId, Role.user, question⟩),
       Effect.dbInsertMessage o.userMessageId Role.user ::
         (if !(optStrTruthy c.title) then
            [Effect.dbUpdateChatTitle chatId (deriveTitle 50 question)]
          else []) ++
         [Effect.assistantLookup, Effect.dbCountMessages chatId,
          Effect.threadMessageCreate c.openaiThreadId
            (decide (countMessages db chatId + 1 ≤ 1)),
          Effect.runPoll c.openaiThreadId, Effect.listMessages c.openaiThreadId]⟩ := by
  simp only [askCore]
  rcases h2 with ⟨hn, hm⟩ | ⟨am, hs, hr, hm⟩ | ⟨am, hs, hr, hf, hm⟩
  · rw [hn]
    subst hm
    by_cases ht : optStrTruthy c.title = true <;>
      simp [ht, h1, countMessages_updateChatTitle, countMessages_insert_same,
        List.append_assoc]
  · rw [hs]
    subst hm
    by_cases ht : optStrTruthy c.title = true <;>
      simp [ht, h1, hr, countMessages_updateChatTitle, countMessages_insert_same,
        List.append_assoc]
  · rw [hs]
    subst hm
    by_cases ht : optStrTruthy c.title = true <;>
      simp [ht, h1, hr, hf, countMessages_updateChatTitle, countMessages_insert_same,
        List.append_assoc]

theorem streamQuestion_of_no_chat (db : DB) (o : StreamOracle)
    (input : StreamQuestionInput)
    (hc : selectChatScoped db input.chatId input.userId = none) :
    streamQuestion db o input =
      ⟨[StreamEvent.error "Chat not found"], db,
       [Effect.dbSelectChat input.chatId input.userId]⟩ := by
  simp only [streamQuestion]
  rw [hc]

theorem streamQuestion_of_no_file (db : DB) (o : StreamOracle)
    (input : StreamQuestionInput) (c : ChatRec)
    (hc : selectChatScoped db input.chatId input.userId = some c)
    (hf : selectFileById db c.fileId = none) :
    streamQuestion db o input =
      ⟨[StreamEvent.error "File not found"], db,
       [Effect.dbSelectChat input.chatId input.userId,
        Effect.dbSelectFile c.fileId]⟩ := by
  simp only [streamQuestion]
  rw [hc]
  simp [hf]

theorem streamQuestion_of_synced (db : DB) (o : StreamOracle)
    (input : StreamQuestionInput) (c : ChatRec) (f : FileRec)
    (hc : selectChatScoped db input.chatId input.userId = some c)
    (hf : selectFileById db c.fileId = some f)
    (hs : optStrTruthy f.openaiFileId = true) :
    streamQuestion db o input =
      ⟨(streamCore db o input c).events, (streamCore db o input c).db,
       Effect.dbSelectChat input.chatId input.userId ::
         Effect.dbSelectFile c.fileId :: (streamCore db o input c).trace⟩ := by
  simp only [streamQuestion]
  rw [hc]
  simp [hf, hs]

theorem streamQuestion_of_upload (db : DB) (o : StreamOracle)
    (input : StreamQuestionInput) (c : ChatRec) (f : FileRec)
    (hc : selectChatScoped db input.chatId input.userId = some c)
    (hf : selectFileById db c.fileId = some f)
    (hs : optStrTruthy f.openaiFileId = false)
    (hd : o.downloadOk = true) :
    streamQuestion db o input =
      ⟨StreamEvent.status "Uploading file to AI..." ::
         (streamCore (updateFileOpenaiId db c.fileId o.uploadedFileId) o input c).events,
       (streamCore (updateFileOpenaiId db c.fileId o.uploadedFileId) o input c).db,
       Effect.dbSelectChat input.chatId input.userId ::
         Effect.dbSelectFile c.fileId ::
         Effect.storageDownload f.storagePath ::
         Effect.openaiFileCreate f.originalFilename ::
         Effect.dbUpdateFileOpenaiId c.fileId o.uploadedFileId ::
         (streamCore (updateFileOpenaiId db c.fileId o.uploadedFileId) o input c).trace⟩ := by
  simp only [streamQuestion]
  rw [hc]
  simp [hf, hs, hd]

theorem streamQuestion_of_download_fail (db : DB) (o : StreamOracle)
    (input : StreamQuestionInput) (c : ChatRec) (f : FileRec)
    (hc : selectChatScoped db input.chatId input.userId = some c)
    (hf : selectFileById db c.fileId = some f)
    (hs : optStrTruthy f.openaiFileId = false)
    (hd : o.downloadOk = false) :
    streamQuestion db o input =
      ⟨[StreamEvent.status "Uploading file to AI...",
        StreamEvent.error "Failed to download file from storage"], db,
       [Effect.dbSelectChat input.chatId input.userId,
        Effect.dbSelectFile c.fileId,
        Effect.storageDownload f.storagePath]⟩ := by
  simp only [streamQuestion]
  rw [hc]
  simp [hf, hs, hd]

theorem askQuestion_of_no_chat (db : DB) (o : AskOracle) (userId chatId question : String)
    (hc : selectChatScoped db chatId userId = none) :
    askQuestion db o userId chatId question =
      ⟨Except.error ⟨"NOT_FOUND", "Chat not found"⟩, db,
       [Effect.dbSelectChat chatId userId]⟩ := by
  simp only [askQuestion]
  rw [hc]

theorem askQuestion_of_no_file (db : DB) (o : AskOracle) (userId chatId question : String)
    (c : ChatRec)
    (hc : selectChatScoped db chatId userId = some c)
    (hf : selectFileById db c.fileId = none) :
    askQuestion db o userId chatId question =
      ⟨Except.error ⟨"NOT_FOUND", "File not found"⟩, db,
       [Effect.dbSelectChat chatId userId, Effect.dbSelectFile c.fileId]⟩ := by
  simp only [askQuestion]
  rw [hc]
  simp [hf]

theorem askQuestion_of_synced (db : DB) (o : AskOracle) (userId chatId question : String)
    (c : ChatRec) (f : FileRec)
    (hc : selectChatScoped db chatId userId = some c)
    (hf : selectFileById db c.fileId = some f)
    (hs : optStrTruthy f.openaiFileId = true) :
    askQuestion db o userId chatId question =
      ⟨(askCore db o chatId question c).result, (askCore db o chatId question c).db,
       Effect.dbSelectChat chatId userId ::
         Effect.dbSelectFile c.fileId :: (askCore db o chatId question c).trace⟩ := by
  simp only [askQuestion]
  rw [hc]
  simp [hf, hs]

theorem askQuestion_of_upload (db : DB) (o : AskOracle) (userId chatId question : String)
    (c : ChatRec) (f : FileRec)
    (hc : selectChatScoped db chatId userId = some c)
    (hf : selectFileById db c.fileId = some f)
    (hs : optStrTruthy f.openaiFileId = false)
    (hd : o.downloadOk = true) :
    askQuestion db o userId chatId question =
      ⟨(askCore (updateFileOpenaiId db c.fileId o.uploadedFileId) o chatId question c).result,
       (askCore (updateFileOpenaiId db c.fileId o.uploadedFileId) o chatId question c).db,
       Effect.dbSelectChat chatId userId ::
         Effect.dbSelectFile c.fileId ::
         Effect.storageDownload f.storagePath ::
         Effect.openaiFileCreate f.originalFilename ::
         Effect.dbUpdateFileOpenaiId c.fileId o.uploadedFileId ::
         (askCore (updateFileOpenaiId db c.fileId o.uploadedFileId) o chatId question c).trace⟩ := by
  simp only [askQuestion]
  rw [hc]
  simp [hf, hs, hd]

theorem askQuestion_of_download_fail (db : DB) (o : AskOracle)
    (userId chatId question : String) (c : ChatRec) (f : FileRec)
    (hc : selectChatScoped db chatId userId = some c)
    (hf : selectFileById db c.fileId = some f)
    (hs : optStrTruthy f.openaiFileId = false)
    (hd : o.downloadOk = false) :
    askQuestion db o userId chatId question =
      ⟨Except.error ⟨"INTERNAL_SERVER_ERROR", "Failed to download file from storage"⟩,
       db,
       [Effect.dbSelectChat chatId userId, Effect.dbSelectFile c.fileId,
        Effect.storageDownload f.storagePath]⟩ := by
  simp only [askQuestion]
  rw [hc]
  simp [hf, hs, hd]

end CoreEquations

section PhaseOrder

theorem phasesSorted_streamQuestion (db : DB) (o : StreamOracle)
    (input : StreamQuestionInput) :
    phasesSorted (streamQuestion db o input).trace := by
  rcases hc : selectChatScoped db input.chatId input.userId with _ | c
  · rw [streamQuestion_of_no_chat db o input hc]
    simp [phasesSorted]
  · rcases hf : selectFileById db c.fileId with _ | f
    · rw [streamQuestion_of_no_file db o input c hc hf]
      simp [phasesSorted, phaseOf]
    · by_cases hl : (runStreamLoop o.runItems "").2.2 = LoopExit.normal
      · by_cases he : (runStreamLoop o.runItems "").2.1 = ""
        · by_cases hs : optStrTruthy f.openaiFileId = true
          · rw [streamQuestion_of_synced db o input c f hc hf hs,
              streamCore_of_empty db o input c hl he]
            by_cases ht : optStrTruthy c.title = true <;>
              simp [ht, phasesSorted, List.chain'_cons, phaseOf]
          · by_cases hd : o.downloadOk = true
            · rw [streamQuestion_of_upload db o input c f hc hf
                (Bool.not_eq_true _ ▸ hs) hd,
                streamCore_of_empty _ o input c hl he]
              by_cases ht : optStrTruthy c.title = true <;>
                simp [ht, phasesSorted, List.chain'_cons, phaseOf]
            · rw [streamQuestion_of_download_fail db o input c f hc hf
                (Bool.not_eq_true _ ▸ hs) (Bool.not_eq_true _ ▸ hd)]
              simp [phasesSorted, List.chain'_cons, phaseOf]
        · by_cases hs : optStrTruthy f.openaiFileId = true
          · rw [streamQuestion_of_synced db o input c f hc hf hs,
              streamCore_of_normal_ne db o input c hl he]
            by_cases ht : optStrTruthy c.title = true <;>
              simp [ht, phasesSorted, List.chain'_cons, phaseOf]
          · by_cases hd : o.downloadOk = true
            · rw [streamQuestion_of_upload db o input c f hc hf
                (Bool.not_eq_true _ ▸ hs) hd,
                streamCore_of_normal_ne _ o input c hl he]
              by_cases ht : optStrTruthy c.title = true <;>
                simp [ht, phasesSorted, List.chain'_cons, phaseOf]
            · rw [streamQuestion_of_download_fail db o input c f hc hf
                (Bool.not_eq_true _ ▸ hs) (Bool.not_eq_true _ ▸ hd)]
              simp [phasesSorted, List.chain'_cons, phaseOf]
      · by_cases hs : optStrTruthy f.openaiFileId = true
        · rw [streamQuestion_of_synced db o input c f hc hf hs,
            streamCore_of_not_normal db o input c hl]
          by_cases ht : optStrTruthy c.title = true <;>
            simp [ht, phasesSorted, List.chain'_cons, phaseOf]
        · by_cases hd : o.downloadOk = true
          · rw [streamQuestion_of_upload db o input c f hc hf
              (Bool.not_eq_true _ ▸ hs) hd,
              streamCore_of_not_normal _ o input c hl]
            by_cases ht : optStrTruthy c.title = true <;>
              simp [ht, phasesSorted, List.chain'_cons, phaseOf]
          · rw [streamQuestion_of_download_fail db o input c f hc hf
              (Bool.not_eq_true _ ▸ hs) (Bool.not_eq_true _ ▸ hd)]
            simp [phasesSorted, List.chain'_cons, phaseOf]

theorem phasesSorted_askCore_cons (db : DB) (o : AskOracle)
    (chatId question : String) (c : ChatRec) (e : Effect)
    (h2 : phaseOf e ≤ 2) :
    phasesSorted (e :: (askCore db o chatId question c).trace) := by
  by_cases hr : o.runStatus = "completed"
  · rcases hL : o.listed with _ | am
    · rw [askCore_of_bad_listed db o chatId question c _ hr (Or.inl ⟨hL, rfl⟩)]
      by_cases ht : optStrTruthy c.title = true <;>
        simp [ht, phasesSorted, List.chain'_cons, phaseOf] <;> exact h2
    · by_cases hrole : am.role = Role.assistant
      · rcases hT : findTextBlock am.content with _ | ans
        · rw [askCore_of_bad_listed db o chatId question c _ hr
            (Or.inr (Or.inr ⟨am, hL, hrole, hT, rfl⟩))]
          by_cases ht : optStrTruthy c.title = true <;>
            simp [ht, phasesSorted, List.chain'_cons, phaseOf] <;> exact h2
        · rw [askCore_of_ok db o chatId question c am ans hr hL hrole hT]
          by_cases ht : optStrTruthy c.title = true <;>
            simp [ht, phasesSorted, List.chain'_cons, phaseOf] <;> exact h2
      · rw [askCore_of_bad_listed db o chatId question c _ hr
          (Or.inr (Or.inl ⟨am, hL, hrole, rfl⟩))]
        by_cases ht : optStrTruthy c.title = true <;>
          simp [ht, phasesSorted, List.chain'_cons, phaseOf] <;> exact h2
  · rw [askCore_of_incomplete db o chatId question c hr]
    by_cases ht : optStrTruthy c.title = true <;>
      simp [ht, phasesSorted, List.chain'_cons, phaseOf] <;> exact h2

theorem phasesSorted_askQuestion (db : DB) (o : AskOracle)
    (userId chatId question : String) :
    phasesSorted (askQuestion db o userId chatId question).trace := by
  rcases hc : selectChatScoped db chatId userId with _ | c
  · rw [askQuestion_of_no_chat db o userId chatId question hc]
    simp [phasesSorted]
  · rcases hf : selectFileById db c.fileId with _ | f
    · rw [askQuestion_of_no_file db o userId chatId question c hc hf]
      simp [phasesSorted, phaseOf]
    · by_cases hs : optStrTruthy f.openaiFileId = true
      · rw [askQuestion_of_synced db o userId chatId question c f hc hf hs]
        have h := phasesSorted_askCore_cons db o chatId question c
          (Effect.dbSelectFile c.fileId) (by simp [phaseOf])
        exact List.chain'_cons.mpr ⟨by simp [phaseOf], h⟩
      · by_cases hd : o.downloadOk = true
        · rw [askQuestion_of_upload db o userId chatId question c f hc hf
            (Bool.not_eq_true _ ▸ hs) hd]
          have h := phasesSorted_askCore_cons
            (updateFileOpenaiId db c.fileId o.uploadedFileId) o chatId question c
            (Effect.dbUpdateFileOpenaiId c.fileId o.uploadedFileId)
            (by simp [phaseOf])
          exact List.chain'_cons.mpr ⟨by simp [phaseOf],
            List.chain'_cons.mpr ⟨by simp [phaseOf],
              List.chain'_cons.mpr ⟨by simp [phaseOf],
                List.chain'_cons.mpr ⟨by simp [phaseOf], h⟩⟩⟩⟩
        · rw [askQuestion_of_download_fail db o userId chatId question c f hc hf
            (Bool.not_eq_true _ ▸ hs) (Bool.not_eq_true _ ▸ hd)]
          simp [phasesSorted, List.chain'_cons, phaseOf]

/-- The post-sync part of `streamQuestion` performs no storage download,
no provider file upload, and no run poll. -/
theorem streamCore_trace_absent (db : DB) (o : StreamOracle)
    (input : StreamQuestionInput) (c : ChatRec) (p n t : String) :
    Effect.storageDownload p ∉ (streamCore db o input c).trace ∧
    Effect.openaiFileCreate n ∉ (streamCore db o input c).trace ∧
    Effect.runPoll t ∉ (streamCore db o input c).trace := by
  by_cases hl : (runStreamLoop o.runItems "").2.2 = LoopExit.normal
  · by_cases he : (runStreamLoop o.runItems "").2.1 = ""
    · rw [streamCore_of_empty db o input c hl he]
      by_cases ht : optStrTruthy c.title = true <;> simp [ht]
    · rw [streamCore_of_normal_ne db o input c hl he]
      by_cases ht : optStrTruthy c.title = true <;> simp [ht]
  · rw [streamCore_of_not_normal db o input c hl]
    by_cases ht : optStrTruthy c.title = true <;> simp [ht]

/-- The post-sync part of `askQuestion` performs no storage download, no
provider file upload, and no run stream. -/
theorem askCore_trace_absent (db : DB) (o : AskOracle)
    (chatId question : String) (c : ChatRec) (p n t : String) :
    Effect.storageDownload p ∉ (askCore db o chatId question c).trace ∧
    Effect.openaiFileCreate n ∉ (askCore db o chatId question c).trace ∧
    Effect.runStream t ∉ (askCore db o chatId question c).trace := by
  by_cases hr : o.runStatus = "completed"
  · rcases hL : o.listed with _ | am
    · rw [askCore_of_bad_listed db o chatId question c _ hr (Or.inl ⟨hL, rfl⟩)]
      by_cases ht : optStrTruthy c.title = true <;> simp [ht]
    · by_cases hrole : am.role = Role.assistant
      · rcases hT : findTextBlock am.content with _ | ans
        · rw [askCore_of_bad_listed db o chatId question c _ hr
            (Or.inr (Or.inr ⟨am, hL, hrole, hT, rfl⟩))]
          by_cases ht : optStrTruthy c.title = true <;> simp [ht]
        · rw [askCore_of_ok db o chatId question c am ans hr hL hrole hT]
          by_cases ht : optStrTruthy c.title = true <;> simp [ht]
      · rw [askCore_of_bad_listed db o chatId question c _ hr
          (Or.inr (Or.inl ⟨am, hL, hrole, rfl⟩))]
        by_cases ht : optStrTruthy c.title = true <;> simp [ht]
  · rw [askCore_of_incomplete db o chatId question c hr]
    by_cases ht : optStrTruthy c.title = true <;> simp [ht]

/-- A storage download happens in `streamQuestion` only when the chat and
file lookups succeeded and the file record's `openaiFileId` was not yet
set (JS-falsy), and then only for that file's storage path. -/
theorem streamQuestion_upload_only_if_unsynced (db : DB) (o : StreamOracle)
    (input : StreamQuestionInput) (p : String)
    (hp : Effect.storageDownload p ∈ (streamQuestion db o input).trace) :
    ∃ c f, selectChatScoped db input.chatId input.userId = some c ∧
      selectFileById db c.fileId = some f ∧
      optStrTruthy f.openaiFileId = false ∧ p = f.storagePath := by
  rcases hc : selectChatScoped db input.chatId input.userId with _ | c
  · rw [streamQuestion_of_no_chat db o input hc] at hp
    simp at hp
  · rcases hf : selectFileById db c.fileId with _ | f
    · rw [streamQuestion_of_no_file db o input c hc hf] at hp
      simp at hp
    · by_cases hs : optStrTruthy f.openaiFileId = true
      · rw [streamQuestion_of_synced db o input c f hc hf hs] at hp
        simp at hp
        exact absurd hp (streamCore_trace_absent db o input c p p p).1
      · by_cases hd : o.downloadOk = true
        · rw [streamQuestion_of_upload db o input c f hc hf
            (Bool.not_eq_true _ ▸ hs) hd] at hp
          simp at hp
          rcases hp with h | h
          · exact ⟨c, f, rfl, hf, Bool.not_eq_true _ ▸ hs, h⟩
          · exact absurd h
              (streamCore_trace_absent (updateFileOpenaiId db c.fileId o.uploadedFileId)
                o input c p p p).1
        · rw [streamQuestion_of_download_fail db o input c f hc hf
            (Bool.not_eq_true _ ▸ hs) (Bool.not_eq_true _ ▸ hd)] at hp
          simp at hp
          exact ⟨c, f, rfl, hf, Bool.not_eq_true _ ▸ hs, hp⟩

/-- `streamQuestion` never polls a run. -/
theorem streamQuestion_no_runPoll (db : DB) (o : StreamOracle)
    (input : StreamQuestionInput) (t : String) :
    Effect.runPoll t ∉ (streamQuestion db o input).trace := by
  rcases hc : selectChatScoped db input.chatId input.userId with _ | c
  · rw [streamQuestion_of_no_chat db o input hc]
    simp
  · rcases hf : selectFileById db c.fileId with _ | f
    · rw [streamQuestion_of_no_file db o input c hc hf]
      simp
    · by_cases hs : optStrTruthy f.openaiFileId = true
      · rw [streamQuestion_of_synced db o input c f hc hf hs]
        simp
        exact (streamCore_trace_absent db o input c t t t).2.2
      · by_cases hd : o.downloadOk = true
        · rw [streamQuestion_of_upload db o input c f hc hf
            (Bool.not_eq_true _ ▸ hs) hd]
          simp
          exact (streamCore_trace_absent (updateFileOpenaiId db c.fileId o.uploadedFileId)
            o input c t t t).2.2
        · rw [streamQuestion_of_download_fail db o input c f hc hf
            (Bool.not_eq_true _ ▸ hs) (Bool.not_eq_true _ ▸ hd)]
          simp

/-- `askQuestion` never opens a run stream. -/
theorem askQuestion_no_runStream (db : DB) (o : AskOracle)
    (userId chatId question : String) (t : String) :
    Effect.runStream t ∉ (askQuestion db o userId chatId question).trace := by
  rcases hc : selectChatScoped db chatId userId with _ | c
  · rw [askQuestion_of_no_chat db o userId chatId question hc]
    simp
  · rcases hf : selectFileById db c.fileId with _ | f
    · rw [askQuestion_of_no_file db o userId chatId question c hc hf]
      simp
    · by_cases hs : optStrTruthy f.openaiFileId = true
      · rw [askQuestion_of_synced db o userId chatId question c f hc hf hs]
        simp
        exact (askCore_trace_absent db o chatId question c t t t).2.2
      · by_cases hd : o.downloadOk = true
        · rw [askQuestion_of_upload db o userId chatId question c f hc hf
            (Bool.not_eq_true _ ▸ hs) hd]
          simp
          exact (askCore_trace_absent (updateFileOpenaiId db c.fileId o.uploadedFileId)
            o chatId question c t t t).2.2
        · rw [askQuestion_of_download_fail db o userId chatId question c f hc hf
            (Bool.not_eq_true _ ▸ hs) (Bool.not_eq_true _ ▸ hd)]
          simp

/-- Once the file is already synced, `streamQuestion` performs no storage
download and no provider file upload. -/
theorem streamQuestion_no_upload_of_synced (db : DB) (o : StreamOracle)
    (input : StreamQuestionInput) (c : ChatRec) (f : FileRec) (p n : String)
    (hc : selectChatScoped db input.chatId input.userId = some c)
    (hf : selectFileById db c.fileId = some f)
    (hs : optStrTruthy f.openaiFileId = true) :
    Effect.storageDownload p ∉ (streamQuestion db o input).trace ∧
    Effect.openaiFileCreate n ∉ (streamQuestion db o input).trace := by
  rw [streamQuestion_of_synced db o input c f hc hf hs]
  constructor
  · simp
    exact (streamCore_trace_absent db o input c p n n).1
  · simp
    exact (streamCore_trace_absent db o input c p n n).2.1

/-- Once the file is already synced, `askQuestion` performs no storage
download and no provider file upload. -/
theorem askQuestion_no_upload_of_synced (db : DB) (o : AskOracle)
    (userId chatId question : String) (c : ChatRec) (f : FileRec) (p n : String)
    (hc : selectChatScoped db chatId userId = some c)
    (hf : selectFileById db c.fileId = some f)
    (hs : optStrTruthy f.openaiFileId = true) :
    Effect.storageDownload p ∉ (askQuestion db o userId chatId question).trace ∧
    Effect.openaiFileCreate n ∉ (askQuestion db o userId chatId question).trace := by
  rw [askQuestion_of_synced db o userId chatId question c f hc hf hs]
  constructor
  · simp
    exact (askCore_trace_absent db o chatId question c p n n).1
  · simp
    exact (askCore_trace_absent db o chatId question c p n n).2.1

end PhaseOrder

section StreamContent

/-- In a successful `streamCore` run the final messages are the old ones
plus the user message and the assistant message holding the accumulated
stream content. -/
theorem streamCore_success_db_messages (db : DB) (o : StreamOracle)
    (input : StreamQuestionInput) (c : ChatRec)
    (h1 : (runStreamLoop o.runItems "").2.2 = LoopExit.normal)
    (h2 : ¬ (runStreamLoop o.runItems "").2.1 = "") :
    (streamCore db o input c).db.messages =
      db.messages ++
        [⟨o.userMessageId, input.chatId, Role.user, input.question⟩,
         ⟨o.assistantMessageId, input.chatId, Role.assistant,
          (runStreamLoop o.runItems "").2.1⟩] := by
  rw [streamCore_of_normal_ne db o input c h1 h2]
  by_cases ht : optStrTruthy c.title = true <;>
    simp [ht, insertMessage, updateChatTitle]

/-- In a failed or empty `streamCore` run the final messages are the old
ones plus only the user message. -/
theorem streamCore_fail_db_messages (db : DB) (o : StreamOracle)
    (input : StreamQuestionInput) (c : ChatRec)
    (h : ¬ (runStreamLoop o.runItems "").2.2 = LoopExit.normal ∨
      (runStreamLoop o.runItems "").2.1 = "") :
    (streamCore db o input c).db.messages =
      db.messages ++ [⟨o.userMessageId, input.chatId, Role.user, input.question⟩] := by
  rcases h with h | h
  · rw [streamCore_of_not_normal db o input c h]
    by_cases ht : optStrTruthy c.title = true <;>
      simp [ht, insertMessage, updateChatTitle]
  · by_cases h1 : (runStreamLoop o.runItems "").2.2 = LoopExit.normal
    · rw [streamCore_of_empty db o input c h1 h]
      by_cases ht : optStrTruthy c.title = true <;>
        simp [ht, insertMessage, updateChatTitle]
    · rw [streamCore_of_not_normal db o input c h1]
      by_cases ht : optStrTruthy c.title = true <;>
        simp [ht, insertMessage, updateChatTitle]

/-- The concatenated delta contents of a successful `streamCore` run
equal the accumulated stream content. -/
theorem concatDeltas_streamCore_success (db : DB) (o : StreamOracle)
    (input : StreamQuestionInput) (c : ChatRec)
    (h1 : (runStreamLoop o.runItems "").2.2 = LoopExit.normal)
    (h2 : ¬ (runStreamLoop o.runItems "").2.1 = "") :
    concatDeltas (streamCore db o input c).events =
      (runStreamLoop o.runItems "").2.1 := by
  rw [streamCore_of_normal_ne db o input c h1 h2]
  have : concatDeltas
      (StreamEvent.status "Searching document..." :: (runStreamLoop o.runItems "").1 ++
        [StreamEvent.done o.userMessageId o.assistantMessageId]) =
      concatDeltas (runStreamLoop o.runItems "").1 := by
    simp [concatDeltas, concatDeltas_append, String.append_empty]
  rw [this, runStreamLoop_content o.runItems ""]
  rw [String.empty_append]

/-- The two content facts of the streaming handler, at the level of
`streamCore`: a yielded done event means the assistant message holding
exactly the concatenated deltas was inserted alongside the user message,
and a run with no delta events inserts no assistant message and yields
an error instead of done. -/
theorem streamCore_claim2 (db : DB) (o : StreamOracle)
    (input : StreamQuestionInput) (c : ChatRec) :
    (∀ u a, StreamEvent.done u a ∈ (streamCore db o input c).events →
      u = o.userMessageId ∧ a = o.assistantMessageId ∧
      (⟨a, input.chatId, Role.assistant,
        concatDeltas (streamCore db o input c).events⟩ : MessageRec) ∈
        (streamCore db o input c).db.messages ∧
      (⟨u, input.chatId, Role.user, input.question⟩ : MessageRec) ∈
        (streamCore db o input c).db.messages) ∧
    ((∀ s, StreamEvent.delta s ∉ (streamCore db o input c).events) →
      ((streamCore db o input c).db.messages.filter (fun m => m.role == Role.assistant) =
        db.messages.filter (fun m => m.role == Role.assistant)) ∧
      (∃ m, StreamEvent.error m ∈ (streamCore db o input c).events) ∧
      (∀ u a, StreamEvent.done u a ∉ (streamCore db o input c).events)) := by
  by_cases hl : (runStreamLoop o.runItems "").2.2 = LoopExit.normal
  · by_cases he : (runStreamLoop o.runItems "").2.1 = ""
    · -- normal exit, empty content: error event, no assistant insert
      constructor
      · intro u a hmem
        rw [streamCore_of_empty db o input c hl he] at hmem
        simp at hmem
        exact absurd hmem (runStreamLoop_no_done o.runItems "" u a)
      · intro _
        refine ⟨?_, ⟨"No response received from assistant", ?_⟩, ?_⟩
        · rw [streamCore_fail_db_messages db o input c (Or.inr he)]
          simp [List.filter_append]
        · rw [streamCore_of_empty db o input c hl he]
          simp
        · intro u a hmem
          rw [streamCore_of_empty db o input c hl he] at hmem
          simp at hmem
          exact absurd hmem (runStreamLoop_no_done o.runItems "" u a)
    · -- success: done event carries the inserted ids and content
      constructor
      · intro u a hmem
        rw [streamCore_of_normal_ne db o input c hl he] at hmem
        simp at hmem
        rcases hmem with hmem | ⟨hu, ha⟩
        · exact absurd hmem (runStreamLoop_no_done o.runItems "" u a)
        · subst hu
          subst ha
          refine ⟨rfl, rfl, ?_, ?_⟩
          · rw [concatDeltas_streamCore_success db o input c hl he,
              streamCore_success_db_messages db o input c hl he]
            simp
          · rw [streamCore_success_db_messages db o input c hl he]
            simp
      · intro hnd
        exfalso
        apply he
        have hmem : ∀ s, StreamEvent.delta s ∉ (runStreamLoop o.runItems "").1 := by
          intro s hs
          apply hnd s
          rw [streamCore_of_normal_ne db o input c hl he]
          simp
          exact hs
        rw [runStreamLoop_content o.runItems "",
          concatDeltas_of_no_delta _ hmem]
        rfl
  · -- run failed or stream threw: error event, no assistant insert
    constructor
    · intro u a hmem
      rw [streamCore_of_not_normal db o input c hl] at hmem
      simp at hmem
      exact absurd hmem (runStreamLoop_no_done o.runItems "" u a)
    · intro _
      refine ⟨?_, ?_, ?_⟩
      · rw [streamCore_fail_db_messages db o input c (Or.inl hl)]
        simp [List.filter_append]
      · rcases runStreamLoop_error_of_not_normal o.runItems "" hl with ⟨m, hm⟩
        refine ⟨m, ?_⟩
        rw [streamCore_of_not_normal db o input c hl]
        simp
        exact hm
      · intro u a hmem
        rw [streamCore_of_not_normal db o input c hl] at hmem
        simp at hmem
        exact absurd hmem (runStreamLoop_no_done o.runItems "" u a)

end StreamContent

section Attachment

/-- The thread-message creation of `streamCore` attaches the file exactly
when the chat-message count after the user-message insert is at most 1,
and targets the chat's thread. -/
theorem streamCore_threadMessage (db : DB) (o : StreamOracle)
    (input : StreamQuestionInput) (c : ChatRec) (tid : String) (b : Bool)
    (h : Effect.threadMessageCreate tid b ∈ (streamCore db o input c).trace) :
    b = decide (countMessages db input.chatId = 0) ∧ tid = c.openaiThreadId := by
  by_cases hl : (runStreamLoop o.runItems "").2.2 = LoopExit.normal
  · by_cases he : (runStreamLoop o.runItems "").2.1 = ""
    · rw [streamCore_of_empty db o input c hl he] at h
      by_cases ht : optStrTruthy c.title = true <;> simp [ht] at h <;>
        exact ⟨h.2, h.1⟩
    · rw [streamCore_of_normal_ne db o input c hl he] at h
      by_cases ht : optStrTruthy c.title = true <;> simp [ht] at h <;>
        exact ⟨h.2, h.1⟩
  · rw [streamCore_of_not_normal db o input c hl] at h
    by_cases ht : optStrTruthy c.title = true <;> simp [ht] at h <;>
      exact ⟨h.2, h.1⟩

/-- The thread-message creation of `askCore` attaches the file exactly
when the chat-message count after the user-message insert is at most 1,
and targets the chat's thread. -/
theorem askCore_threadMessage (db : DB) (o : AskOracle)
    (chatId question : String) (c : ChatRec) (tid : String) (b : Bool)
    (h : Effect.threadMessageCreate tid b ∈ (askCore db o chatId question c).trace) :
    b = decide (countMessages db chatId = 0) ∧ tid = c.openaiThreadId := by
  by_cases hr : o.runStatus = "completed"
  · rcases hL : o.listed with _ | am
    · rw [askCore_of_bad_listed db o chatId question c _ hr (Or.inl ⟨hL, rfl⟩)] at h
      by_cases ht : optStrTruthy c.title = true <;> simp [ht] at h <;>
        exact ⟨h.2, h.1⟩
    · by_cases hrole : am.role = Role.assistant
      · rcases hT : findTextBlock am.content with _ | ans
        · rw [askCore_of_bad_listed db o chatId question c _ hr
            (Or.inr (Or.inr ⟨am, hL, hrole, hT, rfl⟩))] at h
          by_cases ht : optStrTruthy c.title = true <;> simp [ht] at h <;>
            exact ⟨h.2, h.1⟩
        · rw [askCore_of_ok db o chatId question c am ans hr hL hrole hT] at h
          by_cases ht : optStrTruthy c.title = true <;> simp [ht] at h <;>
            exact ⟨h.2, h.1⟩
      · rw [askCore_of_bad_listed db o chatId question c _ hr
          (Or.inr (Or.inl ⟨am, hL, hrole, rfl⟩))] at h
        by_cases ht : optStrTruthy c.title = true <;> simp [ht] at h <;>
          exact ⟨h.2, h.1⟩
  · rw [askCore_of_incomplete db o chatId question c hr] at h
    by_cases ht : optStrTruthy c.title = true <;> simp [ht] at h <;>
      exact ⟨h.2, h.1⟩

end Attachment

section Titles

/-- Every chat title in the database is either unset or a non-empty
string (the invariant the API maintains, since questions and rename
inputs are validated non-empty). -/
def titlesOk (db : DB) : Prop :=
  ∀ c ∈ db.chats, c.title ≠ some ""

/-- A derived title is non-empty whenever the question is. -/
theorem deriveTitle_ne_empty (lim : Nat) (q : String) (hq : q ≠ "") :
    deriveTitle lim q ≠ "" := by
  unfold deriveTitle
  by_cases hlen : q.length > lim
  · rw [if_pos hlen]
    intro h
    have := congrArg String.length h
    simp [String.length_append] at this
    exact absurd this.2 (by decide)
  · rw [if_neg hlen]
    exact hq

theorem titlesOk_updateChatTitle (db : DB) (cid t : String)
    (hok : titlesOk db) (ht : t ≠ "") :
    ∀ c ∈ (updateChatTitle db cid t).chats, c.title ≠ some "" := by
  intro c hc
  rcases List.mem_map.mp hc with ⟨x, hx, rfl⟩
  by_cases hid : x.id = cid <;> simp [updateChatTitle, hid]
  · intro h
    exact ht h
  · exact hok x hx

/-- The chats after `streamCore`: untouched when the chat already had a
truthy title, otherwise retitled with the derived title. -/
theorem streamCore_chats (db : DB) (o : StreamOracle)
    (input : StreamQuestionInput) (c : ChatRec) :
    (streamCore db o input c).db.chats =
      (if optStrTruthy c.title then db.chats
       else (updateChatTitle db input.chatId (deriveTitle 30 input.question)).chats) := by
  by_cases hl : (runStreamLoop o.runItems "").2.2 = LoopExit.normal
  · by_cases he : (runStreamLoop o.runItems "").2.1 = ""
    · rw [streamCore_of_empty db o input c hl he]
      by_cases ht : optStrTruthy c.title = true <;>
        simp [ht, insertMessage, updateChatTitle]
    · rw [streamCore_of_normal_ne db o input c hl he]
      by_cases ht : optStrTruthy c.title = true <;>
        simp [ht, insertMessage, updateChatTitle]
  · rw [streamCore_of_not_normal db o input c hl]
    by_cases ht : optStrTruthy c.title = true <;>
      simp [ht, insertMessage, updateChatTitle]

/-- The chats after `askCore`: untouched when the chat already had a
truthy title, otherwise retitled with the derived title (limit 50). -/
theorem askCore_chats (db : DB) (o : AskOracle)
    (chatId question : String) (c : ChatRec) :
    (askCore db o chatId question c).db.chats =
      (if optStrTruthy c.title then db.chats
       else (updateChatTitle db chatId (deriveTitle 50 question)).chats) := by
  by_cases hr : o.runStatus = "completed"
  · rcases hL : o.listed with _ | am
    · rw [askCore_of_bad_listed db o chatId question c _ hr (Or.inl ⟨hL, rfl⟩)]
      by_cases ht : optStrTruthy c.title = true <;>
        simp [ht, insertMessage, updateChatTitle]
    · by_cases hrole : am.role = Role.assistant
      · rcases hT : findTextBlock am.content with _ | ans
        · rw [askCore_of_bad_listed db o chatId question c _ hr
            (Or.inr (Or.inr ⟨am, hL, hrole, hT, rfl⟩))]
          by_cases ht : optStrTruthy c.title = true <;>
            simp [ht, insertMessage, updateChatTitle]
        · rw [askCore_of_ok db o chatId question c am ans hr hL hrole hT]
          by_cases ht : optStrTruthy c.title = true <;>
            simp [ht, insertMessage, updateChatTitle]
      · rw [askCore_of_bad_listed db o chatId question c _ hr
          (Or.inr (Or.inl ⟨am, hL, hrole, rfl⟩))]
        by_cases ht : optStrTruthy c.title = true <;>
          simp [ht, insertMessage, updateChatTitle]
  · rw [askCore_of_incomplete db o chatId question c hr]
    by_cases ht : optStrTruthy c.title = true <;>
      simp [ht, insertMessage, updateChatTitle]

/-- The chats after `streamQuestion` are either untouched or retitled
with the title derived from the question. -/
theorem streamQuestion_chats_cases (db : DB) (o : StreamOracle)
    (input : StreamQuestionInput) :
    (streamQuestion db o input).db.chats = db.chats ∨
    (streamQuestion db o input).db.chats =
      (updateChatTitle db input.chatId (deriveTitle 30 input.question)).chats := by
  rcases hc : selectChatScoped db input.chatId input.userId with _ | c
  · rw [streamQuestion_of_no_chat db o input hc]
    exact Or.inl rfl
  · rcases hf : selectFileById db c.fileId with _ | f
    · rw [streamQuestion_of_no_file db o input c hc hf]
      exact Or.inl rfl
    · by_cases hs : optStrTruthy f.openaiFileId = true
      · rw [streamQuestion_of_synced db o input c f hc hf hs]
        rw [streamCore_chats db o input c]
        by_cases ht : optStrTruthy c.title = true <;> simp [ht]
      · by_cases hd : o.downloadOk = true
        · rw [streamQuestion_of_upload db o input c f hc hf
            (Bool.not_eq_true _ ▸ hs) hd]
          rw [streamCore_chats (updateFileOpenaiId db c.fileId o.uploadedFileId) o input c]
          by_cases ht : optStrTruthy c.title = true <;>
            simp [ht, updateChatTitle, chats_updateFileOpenaiId]
        · rw [streamQuestion_of_download_fail db o input c f hc hf
            (Bool.not_eq_true _ ▸ hs) (Bool.not_eq_true _ ▸ hd)]
          exact Or.inl rfl

/-- The chats after `askQuestion` are either untouched or retitled with
the title derived from the question (limit 50). -/
theorem askQuestion_chats_cases (db : DB) (o : AskOracle)
    (userId chatId question : String) :
    (askQuestion db o userId chatId question).db.chats = db.chats ∨
    (askQuestion db o userId chatId question).db.chats =
      (updateChatTitle db chatId (deriveTitle 50 question)).chats := by
  rcases hc : selectChatScoped db chatId userId with _ | c
  · rw [askQuestion_of_no_chat db o userId chatId question hc]
    exact Or.inl rfl
  · rcases hf : selectFileById db c.fileId with _ | f
    · rw [askQuestion_of_no_file db o userId chatId question c hc hf]
      exact Or.inl rfl
    · by_cases hs : optStrTruthy f.openaiFileId = true
      · rw [askQuestion_of_synced db o userId chatId question c f hc hf hs]
        rw [askCore_chats db o chatId question c]
        by_cases ht : optStrTruthy c.title = true <;> simp [ht]
      · by_cases hd : o.downloadOk = true
        · rw [askQuestion_of_upload db o userId chatId question c f hc hf
            (Bool.not_eq_true _ ▸ hs) hd]
          rw [askCore_chats (updateFileOpenaiId db c.fileId o.uploadedFileId) o chatId question c]
          by_cases ht : optStrTruthy c.title = true <;>
            simp [ht, updateChatTitle, chats_updateFileOpenaiId]
        · rw [askQuestion_of_download_fail db o userId chatId question c f hc hf
            (Bool.not_eq_true _ ▸ hs) (Bool.not_eq_true _ ▸ hd)]
          exact Or.inl rfl

/-- A chat whose title is already truthy keeps all chats unchanged
through `streamQuestion`. -/
theorem streamQuestion_chats_of_truthy (db : DB) (o : StreamOracle)
    (input : StreamQuestionInput) (c : ChatRec)
    (hc : selectChatScoped db input.chatId input.userId = some c)
    (ht : optStrTruthy c.title = true) :
    (streamQuestion db o input).db.chats = db.chats := by
  rcases hf : selectFileById db c.fileId with _ | f
  · rw [streamQuestion_of_no_file db o input c hc hf]
  · by_cases hs : optStrTruthy f.openaiFileId = true
    · rw [streamQuestion_of_synced db o input c f hc hf hs,
        streamCore_chats db o input c, if_pos ht]
    · by_cases hd : o.downloadOk = true
      · rw [streamQuestion_of_upload db o input c f hc hf
          (Bool.not_eq_true _ ▸ hs) hd,
          streamCore_chats (updateFileOpenaiId db c.fileId o.uploadedFileId) o input c,
          if_pos ht]
        rfl
      · rw [streamQuestion_of_download_fail db o input c f hc hf
          (Bool.not_eq_true _ ▸ hs) (Bool.not_eq_true _ ▸ hd)]

/-- A chat whose title is already truthy keeps all chats unchanged
through `askQuestion`. -/
theorem askQuestion_chats_of_truthy (db : DB) (o : AskOracle)
    (userId chatId question : String) (c : ChatRec)
    (hc : selectChatScoped db chatId userId = some c)
    (ht : optStrTruthy c.title = true) :
    (askQuestion db o userId chatId question).db.chats = db.chats := by
  rcases hf : selectFileById db c.fileId with _ | f
  · rw [askQuestion_of_no_file db o userId chatId question c hc hf]
  · by_cases hs : optStrTruthy f.openaiFileId = true
    · rw [askQuestion_of_synced db o userId chatId question c f hc hf hs,
        askCore_chats db o chatId question c, if_pos ht]
    · by_cases hd : o.downloadOk = true
      · rw [askQuestion_of_upload db o userId chatId question c f hc hf
          (Bool.not_eq_true _ ▸ hs) hd,
          askCore_chats (updateFileOpenaiId db c.fileId o.uploadedFileId) o chatId question c,
          if_pos ht]
        rfl
      · rw [askQuestion_of_download_fail db o userId chatId question c f hc hf
          (Bool.not_eq_true _ ▸ hs) (Bool.not_eq_true _ ▸ hd)]

/-- A chat with no title yet gets the derived title as soon as the
execution reaches the message stage of `streamQuestion`. -/
theorem streamQuestion_chats_of_set (db : DB) (o : StreamOracle)
    (input : StreamQuestionInput) (c : ChatRec) (f : FileRec)
    (hc : selectChatScoped db input.chatId input.userId = some c)
    (hf : selectFileById db c.fileId = some f)
    (ht : c.title = none)
    (hsync : optStrTruthy f.openaiFileId = true ∨ o.downloadOk = true) :
    (streamQuestion db o input).db.chats =
      (updateChatTitle db input.chatId (deriveTitle 30 input.question)).chats := by
  have ht' : optStrTruthy c.title = false := by rw [ht]; rfl
  by_cases hs : optStrTruthy f.openaiFileId = true
  · rw [streamQuestion_of_synced db o input c f hc hf hs,
      streamCore_chats db o input c, if_neg (by simp [ht'])]
  · rcases hsync with hsync | hd
    · exact absurd hsync hs
    · rw [streamQuestion_of_upload db o input c f hc hf
        (Bool.not_eq_true _ ▸ hs) hd,
        streamCore_chats (updateFileOpenaiId db c.fileId o.uploadedFileId) o input c,
        if_neg (by simp [ht'])]
      simp [updateChatTitle, chats_updateFileOpenaiId]

/-- A chat with no title yet gets the derived title (limit 50) as soon as
the execution reaches the message stage of `askQuestion`. -/
theorem askQuestion_chats_of_set (db : DB) (o : AskOracle)
    (userId chatId question : String) (c : ChatRec) (f : FileRec)
    (hc : selectChatScoped db chatId userId = some c)
    (hf : selectFileById db c.fileId = some f)
    (ht : c.title = none)
    (hsync : optStrTruthy f.openaiFileId = true ∨ o.downloadOk = true) :
    (askQuestion db o userId chatId question).db.chats =
      (updateChatTitle db chatId (deriveTitle 50 question)).chats := by
  have ht' : optStrTruthy c.title = false := by rw [ht]; rfl
  by_cases hs : optStrTruthy f.openaiFileId = true
  · rw [askQuestion_of_synced db o userId chatId question c f hc hf hs,
      askCore_chats db o chatId question c, if_neg (by simp [ht'])]
  · rcases hsync with hsync | hd
    · exact absurd hsync hs
    · rw [askQuestion_of_upload db o userId chatId question c f hc hf
        (Bool.not_eq_true _ ▸ hs) hd,
        askCore_chats (updateFileOpenaiId db c.fileId o.uploadedFileId) o chatId question c,
        if_neg (by simp [ht'])]
      simp [updateChatTitle, chats_updateFileOpenaiId]

end Titles

section Fixtures

/-- Example file row, already synced to the provider. -/
def exFileSynced : FileRec :=
  ⟨"f1", "alice", "doc", "doc.pdf", "application/pdf", 3, "alice/f1.pdf", some "oa1"⟩

/-- Example file row, not yet synced. -/
def exFileUnsynced : FileRec := { exFileSynced with openaiFileId := none }

/-- Example chat row with no title yet. -/
def exChat : ChatRec := ⟨"c1", "alice", "f1", "th1", none⟩

/-- Example chat row with a title. -/
def exChatTitled : ChatRec := { exChat with title := some "my title" }

/-- Example database: one synced file, one untitled chat, no messages. -/
def exDb : DB := ⟨[exFileSynced], [exChat], []⟩

/-- Example database with the chat already titled. -/
def exDbTitled : DB := ⟨[exFileSynced], [exChatTitled], []⟩

/-- Example database with the file not yet synced. -/
def exDbUnsynced : DB := ⟨[exFileUnsynced], [exChat], []⟩

/-- Example stream oracle: everything succeeds, two text deltas. -/
def exStreamOracle : StreamOracle :=
  ⟨true, "up1", "um1", "as1", "am1",
   [RunItem.messageDelta [ContentBlock.text "Hel"],
    RunItem.messageDelta [ContentBlock.text "lo"]]⟩

/-- Example stream oracle whose run fails. -/
def exStreamFailOracle : StreamOracle :=
  { exStreamOracle with runItems := [RunItem.runFailed (some "boom")] }

/-- Example input for `streamQuestion`. -/
def exInput : StreamQuestionInput := ⟨"alice", "c1", "q"⟩

/-- Example ask oracle: everything succeeds. -/
def exAskOracle : AskOracle :=
  ⟨true, "up1", "um1", "as1", "completed",
   some ⟨Role.assistant, [ContentBlock.text "ans"]⟩, "am1"⟩

/-- Example ask oracle whose polled run expires. -/
def exAskFailOracle : AskOracle := { exAskOracle with runStatus := "expired" }

/-- An underlying auth library that accepts every request. -/
def libAllOk : AuthRequest → AuthOutcome := fun _ => AuthOutcome.ok

end Fixtures

section Claims

/-- C1: `streamQuestion` executes its phases in the fixed order
lookups → upload-if-needed → user-message creation → run stream →
persist result; the upload happens only when the file record's
`openaiFileId` is not yet set, and `askQuestion` performs the same
phases in the same order with a polled run in place of the stream
(no poll in the streaming handler, no stream in the mutation). -/
theorem claim1_phase_order (db : DB) (o : StreamOracle) (oa : AskOracle)
    (input : StreamQuestionInput) (userId chatId question : String) :
    phasesSorted (streamQuestion db o input).trace ∧
    phasesSorted (askQuestion db oa userId chatId question).trace ∧
    (∀ p, Effect.storageDownload p ∈ (streamQuestion db o input).trace →
      ∃ c f, selectChatScoped db input.chatId input.userId = some c ∧
        selectFileById db c.fileId = some f ∧
        optStrTruthy f.openaiFileId = false ∧ p = f.storagePath) ∧
    (∀ c f p n, selectChatScoped db input.chatId input.userId = some c →
      selectFileById db c.fileId = some f → optStrTruthy f.openaiFileId = true →
      Effect.storageDownload p ∉ (streamQuestion db o input).trace ∧
      Effect.openaiFileCreate n ∉ (streamQuestion db o input).trace) ∧
    (∀ c f p n, selectChatScoped db chatId userId = some c →
      selectFileById db c.fileId = some f → optStrTruthy f.openaiFileId = true →
      Effect.storageDownload p ∉ (askQuestion db oa userId chatId question).trace ∧
      Effect.openaiFileCreate n ∉ (askQuestion db oa userId chatId question).trace) ∧
    (∀ t, Effect.runPoll t ∉ (streamQuestion db o input).trace) ∧
    (∀ t, Effect.runStream t ∉ (askQuestion db oa userId chatId question).trace) :=
  ⟨phasesSorted_streamQuestion db o input,
   phasesSorted_askQuestion db oa userId chatId question,
   fun p hp => streamQuestion_upload_only_if_unsynced db o input p hp,
   fun c f p n hc hf hs => streamQuestion_no_upload_of_synced db o input c f p n hc hf hs,
   fun c f p n hc hf hs =>
     askQuestion_no_upload_of_synced db oa userId chatId question c f p n hc hf hs,
   fun t => streamQuestion_no_runPoll db o input t,
   fun t => askQuestion_no_runStream db oa userId chatId question t⟩

/-- Witness for C1 at a concrete database and oracles. -/
theorem claim1_phase_order_witness :
    phasesSorted (streamQuestion exDb exStreamOracle exInput).trace ∧
    Effect.storageDownload "alice/f1.pdf" ∉ (streamQuestion exDb exStreamOracle exInput).trace ∧
    Effect.runPoll "th1" ∉ (streamQuestion exDb exStreamOracle exInput).trace :=
  ⟨(claim1_phase_order exDb exStreamOracle exAskOracle exInput "alice" "c1" "q").1,
   ((claim1_phase_order exDb exStreamOracle exAskOracle exInput "alice" "c1" "q").2.2.2.1
      exChat exFileSynced "alice/f1.pdf" "doc.pdf" (by decide) (by decide) (by decide)).1,
   (claim1_phase_order exDb exStreamOracle exAskOracle exInput "alice" "c1" "q").2.2.2.2.2.1
     "th1"⟩

/-- C2: when `streamQuestion` yields a done event, the inserted assistant
chat message's content equals the concatenation, in yield order, of the
contents of all yielded delta events, and the done event carries exactly
the ids of the inserted user and assistant messages; when no delta
content was received, no assistant message is inserted and an error
event is yielded instead of done. -/
theorem claim2_stream_content (db : DB) (o : StreamOracle)
    (input : StreamQuestionInput) :
    (∀ u a, StreamEvent.done u a ∈ (streamQuestion db o input).events →
      u = o.userMessageId ∧ a = o.assistantMessageId ∧
      (⟨a, input.chatId, Role.assistant,
        concatDeltas (streamQuestion db o input).events⟩ : MessageRec) ∈
        (streamQuestion db o input).db.messages ∧
      (⟨u, input.chatId, Role.user, input.question⟩ : MessageRec) ∈
        (streamQuestion db o input).db.messages) ∧
    ((∀ s, StreamEvent.delta s ∉ (streamQuestion db o input).events) →
      ((streamQuestion db o input).db.messages.filter (fun m => m.role == Role.assistant) =
        db.messages.filter (fun m => m.role == Role.assistant)) ∧
      (∃ m, StreamEvent.error m ∈ (streamQuestion db o input).events) ∧
      (∀ u a, StreamEvent.done u a ∉ (streamQuestion db o input).events)) := by
  rcases hc : selectChatScoped db input.chatId input.userId with _ | c
  · rw [streamQuestion_of_no_chat db o input hc]
    constructor
    · intro u a hmem
      simp at hmem
    · intro _
      exact ⟨rfl, ⟨"Chat not found", by simp⟩, by simp⟩
  · rcases hf : selectFileById db c.fileId with _ | f
    · rw [streamQuestion_of_no_file db o input c hc hf]
      constructor
      · intro u a hmem
        simp at hmem
      · intro _
        exact ⟨rfl, ⟨"File not found", by simp⟩, by simp⟩
    · by_cases hs : optStrTruthy f.openaiFileId = true
      · rw [streamQuestion_of_synced db o input c f hc hf hs]
        exact streamCore_claim2 db o input c
      · by_cases hd : o.downloadOk = true
        · rw [streamQuestion_of_upload db o input c f hc hf
            (Bool.not_eq_true _ ▸ hs) hd]
          constructor
          · intro u a hmem
            simp at hmem
            have h := (streamCore_claim2
              (updateFileOpenaiId db c.fileId o.uploadedFileId) o input c).1 u a hmem
            simpa [concatDeltas] using h
          · intro hnd
            have hnd' : ∀ s, StreamEvent.delta s ∉
                (streamCore (updateFileOpenaiId db c.fileId o.uploadedFileId) o input c).events := by
              intro s hs2
              apply hnd s
              simp
              exact hs2
            rcases (streamCore_claim2
              (updateFileOpenaiId db c.fileId o.uploadedFileId) o input c).2 hnd' with
              ⟨hfil, ⟨m, hm⟩, hdone⟩
            refine ⟨hfil, ⟨m, ?_⟩, ?_⟩
            · simp
              exact hm
            · intro u a hmem
              simp at hmem
              exact hdone u a hmem
        · rw [streamQuestion_of_download_fail db o input c f hc hf
            (Bool.not_eq_true _ ▸ hs) (Bool.not_eq_true _ ▸ hd)]
          constructor
          · intro u a hmem
            simp at hmem
          · intro _
            exact ⟨rfl, ⟨"Failed to download file from storage", by simp⟩, by simp⟩

/-- Witness for C2: on a successful concrete run, the done event appears
and the assistant message with the concatenated delta content was
inserted. -/
theorem claim2_stream_content_witness :
    StreamEvent.done "um1" "am1" ∈ (streamQuestion exDb exStreamOracle exInput).events ∧
    (⟨"am1", "c1", Role.assistant,
      concatDeltas (streamQuestion exDb exStreamOracle exInput).events⟩ : MessageRec) ∈
      (streamQuestion exDb exStreamOracle exInput).db.messages :=
  ⟨by decide,
   ((claim2_stream_content exDb exStreamOracle exInput).1 "um1" "am1" (by decide)).2.2.1⟩

/-- C3: the user message sent to the provider thread carries the file
attachment if and only if the chat's message count after inserting the
current user message is at most 1 (i.e. the chat had no messages
before), in both the streaming handler and the askQuestion mutation. -/
theorem claim3_attachment_iff (db : DB) (o : StreamOracle) (oa : AskOracle)
    (input : StreamQuestionInput) (userId chatId question tid : String) (b : Bool) :
    (Effect.threadMessageCreate tid b ∈ (streamQuestion db o input).trace →
      (b = true ↔ countMessages db input.chatId + 1 ≤ 1)) ∧
    (Effect.threadMessageCreate tid b ∈ (askQuestion db oa userId chatId question).trace →
      (b = true ↔ countMessages db chatId + 1 ≤ 1)) := by
  constructor
  · intro h
    rcases hc : selectChatScoped db input.chatId input.userId with _ | c
    · rw [streamQuestion_of_no_chat db o input hc] at h
      simp at h
    · rcases hf : selectFileById db c.fileId with _ | f
      · rw [streamQuestion_of_no_file db o input c hc hf] at h
        simp at h
      · by_cases hs : optStrTruthy f.openaiFileId = true
        · rw [streamQuestion_of_synced db o input c f hc hf hs] at h
          simp at h
          have hb := (streamCore_threadMessage db o input c tid b h).1
          subst hb
          simp only [decide_eq_true_eq]
          omega
        · by_cases hd : o.downloadOk = true
          · rw [streamQuestion_of_upload db o input c f hc hf
              (Bool.not_eq_true _ ▸ hs) hd] at h
            simp at h
            have hb := (streamCore_threadMessage
              (updateFileOpenaiId db c.fileId o.uploadedFileId) o input c tid b h).1
            subst hb
            simp only [decide_eq_true_eq, countMessages_updateFileOpenaiId]
            omega
          · rw [streamQuestion_of_download_fail db o input c f hc hf
              (Bool.not_eq_true _ ▸ hs) (Bool.not_eq_true _ ▸ hd)] at h
            simp at h
  · intro h
    rcases hc : selectChatScoped db chatId userId with _ | c
    · rw [askQuestion_of_no_chat db oa userId chatId question hc] at h
      simp at h
    · rcases hf : selectFileById db c.fileId with _ | f
      · rw [askQuestion_of_no_file db oa userId chatId question c hc hf] at h
        simp at h
      · by_cases hs : optStrTruthy f.openaiFileId = true
        · rw [askQuestion_of_synced db oa userId chatId question c f hc hf hs] at h
          simp at h
          have hb := (askCore_threadMessage db oa chatId question c tid b h).1
          subst hb
          simp only [decide_eq_true_eq]
          omega
        · by_cases hd : oa.downloadOk = true
          · rw [askQuestion_of_upload db oa userId chatId question c f hc hf
              (Bool.not_eq_true _ ▸ hs) hd] at h
            simp at h
            have hb := (askCore_threadMessage
              (updateFileOpenaiId db c.fileId oa.uploadedFileId) oa chatId question c tid b h).1
            subst hb
            simp only [decide_eq_true_eq, countMessages_updateFileOpenaiId]
            omega
          · rw [askQuestion_of_download_fail db oa userId chatId question c f hc hf
              (Bool.not_eq_true _ ▸ hs) (Bool.not_eq_true _ ▸ hd)] at h
            simp at h

/-- Witness for C3: on the concrete first question the provider message
carried the attachment, and indeed the post-insert count is at most 1. -/
theorem claim3_attachment_iff_witness : countMessages exDb "c1" + 1 ≤ 1 :=
  ((claim3_attachment_iff exDb exStreamOracle exAskOracle exInput
      "alice" "c1" "q" "th1" true).1 (by decide)).mp rfl

/-- C4: asking a question sets the chat title only when no truthy title
was present at lookup time (the JS check `!chatRecord.title`; a reachable
title is null or non-empty by the invariant below, so this is exactly
"title is null"), deriving it from the question with a `...` suffix past
the length limit; a chat with a non-empty title is left unchanged by
both handlers, and since validated questions are non-empty the title
written is itself non-empty, making the bookkeeping idempotent. -/
theorem claim4_title_idempotent (db : DB) (o : StreamOracle) (oa : AskOracle)
    (input : StreamQuestionInput) (userId chatId question : String) :
    (∀ c, selectChatScoped db input.chatId input.userId = some c →
      optStrTruthy c.title = true →
      (streamQuestion db o input).db.chats = db.chats) ∧
    (∀ c, selectChatScoped db chatId userId = some c →
      optStrTruthy c.title = true →
      (askQuestion db oa userId chatId question).db.chats = db.chats) ∧
    (∀ c f, selectChatScoped db input.chatId input.userId = some c →
      selectFileById db c.fileId = some f → c.title = none →
      (optStrTruthy f.openaiFileId = true ∨ o.downloadOk = true) →
      (streamQuestion db o input).db.chats =
        (updateChatTitle db input.chatId (deriveTitle 30 input.question)).chats) ∧
    (∀ c f, selectChatScoped db chatId userId = some c →
      selectFileById db c.fileId = some f → c.title = none →
      (optStrTruthy f.openaiFileId = true ∨ oa.downloadOk = true) →
      (askQuestion db oa userId chatId question).db.chats =
        (updateChatTitle db chatId (deriveTitle 50 question)).chats) ∧
    (∀ lim q, q ≠ "" → deriveTitle lim q ≠ "") ∧
    (∀ cid q, streamEndpointAccepts cid q = true → q ≠ "") ∧
    (input.question ≠ "" → titlesOk db → titlesOk (streamQuestion db o input).db) ∧
    (question ≠ "" → titlesOk db → titlesOk (askQuestion db oa userId chatId question).db) := by
  refine ⟨fun c hc ht => streamQuestion_chats_of_truthy db o input c hc ht,
    fun c hc ht => askQuestion_chats_of_truthy db oa userId chatId question c hc ht,
    fun c f hc hf ht hsync => streamQuestion_chats_of_set db o input c f hc hf ht hsync,
    fun c f hc hf ht hsync =>
      askQuestion_chats_of_set db oa userId chatId question c f hc hf ht hsync,
    fun lim q hq => deriveTitle_ne_empty lim q hq,
    fun cid q h => ?_, ?_, ?_⟩
  · simp [streamEndpointAccepts] at h
    exact h.2
  · intro hq hok c hcmem
    rcases streamQuestion_chats_cases db o input with hcase | hcase
    · rw [hcase] at hcmem
      exact hok c hcmem
    · rw [hcase] at hcmem
      exact titlesOk_updateChatTitle db input.chatId _ hok
        (deriveTitle_ne_empty 30 input.question hq) c hcmem
  · intro hq hok c hcmem
    rcases askQuestion_chats_cases db oa userId chatId question with hcase | hcase
    · rw [hcase] at hcmem
      exact hok c hcmem
    · rw [hcase] at hcmem
      exact titlesOk_updateChatTitle db chatId _ hok
        (deriveTitle_ne_empty 50 question hq) c hcmem

/-- Witness for C4: a titled chat stays untouched on a further question,
and an untitled chat gets the derived title. -/
theorem claim4_title_idempotent_witness :
    (streamQuestion exDbTitled exStreamOracle exInput).db.chats = exDbTitled.chats ∧
    (streamQuestion exDb exStreamOracle exInput).db.chats =
      (updateChatTitle exDb "c1" (deriveTitle 30 "q")).chats :=
  ⟨(claim4_title_idempotent exDbTitled exStreamOracle exAskOracle exInput
      "alice" "c1" "q").1 exChatTitled (by decide) (by decide),
   (claim4_title_idempotent exDb exStreamOracle exAskOracle exInput
      "alice" "c1" "q").2.2.1 exChat exFileSynced (by decide) (by decide) rfl
      (Or.inl (by decide))⟩

/-- C5: `syncFileToOpenAI` is idempotent.  For an owned file whose
`openaiFileId` is already set (to a provider id, hence non-empty) the
call returns that id with `alreadySynced := true`, performing only the
lookup: no download, no upload, no database write.  For an owned file
with a null `openaiFileId` it downloads and uploads once, records the
returned provider id on the row, and returns it with
`alreadySynced := false`; a second call then returns the same id with no
second upload. -/
theorem claim5_sync_idempotent (db : DB) (o o' : SyncOracle)
    (userId fileId : String) :
    (∀ f oid, selectFileScoped db fileId userId = some f →
      f.openaiFileId = some oid → oid ≠ "" →
      syncFileToOpenAI db o userId fileId =
        ⟨Except.ok ⟨oid, true⟩, db, [Effect.dbSelectFileScoped fileId userId]⟩) ∧
    (∀ f, selectFileScoped db fileId userId = some f →
      f.openaiFileId = none → o.downloadOk = true →
      syncFileToOpenAI db o userId fileId =
        ⟨Except.ok ⟨o.uploadedFileId, false⟩,
         updateFileOpenaiId db fileId o.uploadedFileId,
         [Effect.dbSelectFileScoped fileId userId,
          Effect.storageDownload f.storagePath,
          Effect.openaiFileCreate f.originalFilename,
          Effect.dbUpdateFileOpenaiId fileId o.uploadedFileId]⟩) ∧
    (∀ f, selectFileScoped db fileId userId = some f →
      f.openaiFileId = none → o.downloadOk = true → o.uploadedFileId ≠ "" →
      syncFileToOpenAI (syncFileToOpenAI db o userId fileId).db o' userId fileId =
        ⟨Except.ok ⟨o.uploadedFileId, true⟩, (syncFileToOpenAI db o userId fileId).db,
         [Effect.dbSelectFileScoped fileId userId]⟩) := by
  have hsynced : ∀ f oid, selectFileScoped db fileId userId = some f →
      f.openaiFileId = some oid → oid ≠ "" →
      syncFileToOpenAI db o userId fileId =
        ⟨Except.ok ⟨oid, true⟩, db, [Effect.dbSelectFileScoped fileId userId]⟩ := by
    intro f oid hs hoid hne
    simp only [syncFileToOpenAI]
    rw [hs]
    simp [optStrTruthy, hoid, hne]
  have hupload : ∀ f, selectFileScoped db fileId userId = some f →
      f.openaiFileId = none → o.downloadOk = true →
      syncFileToOpenAI db o userId fileId =
        ⟨Except.ok ⟨o.uploadedFileId, false⟩,
         updateFileOpenaiId db fileId o.uploadedFileId,
         [Effect.dbSelectFileScoped fileId userId,
          Effect.storageDownload f.storagePath,
          Effect.openaiFileCreate f.originalFilename,
          Effect.dbUpdateFileOpenaiId fileId o.uploadedFileId]⟩ := by
    intro f hs hoid hd
    simp only [syncFileToOpenAI]
    rw [hs]
    simp [optStrTruthy, hoid, hd]
  refine ⟨hsynced, hupload, ?_⟩
  intro f hs hoid hd hne
  rw [hupload f hs hoid hd]
  have hs' := selectFileScoped_update db fileId userId o.uploadedFileId f hs
  simp only [syncFileToOpenAI]
  rw [hs']
  simp [optStrTruthy, hne]

/-- Witness for C5: a concrete already-synced call returns the stored id
with no further effects, and the unsynced call records the uploaded id. -/
theorem claim5_sync_idempotent_witness :
    syncFileToOpenAI exDb ⟨true, "up1"⟩ "alice" "f1" =
      ⟨Except.ok ⟨"oa1", true⟩, exDb, [Effect.dbSelectFileScoped "f1" "alice"]⟩ ∧
    syncFileToOpenAI exDbUnsynced ⟨true, "up1"⟩ "alice" "f1" =
      ⟨Except.ok ⟨"up1", false⟩,
       updateFileOpenaiId exDbUnsynced "f1" "up1",
       [Effect.dbSelectFileScoped "f1" "alice",
        Effect.storageDownload "alice/f1.pdf",
        Effect.openaiFileCreate "doc.pdf",
        Effect.dbUpdateFileOpenaiId "f1" "up1"]⟩ :=
  ⟨(claim5_sync_idempotent exDb ⟨true, "up1"⟩ ⟨true, "up1"⟩ "alice" "f1").1
     exFileSynced "oa1" (by decide) (by decide) (by decide),
   (claim5_sync_idempotent exDbUnsynced ⟨true, "up1"⟩ ⟨true, "up1"⟩ "alice" "f1").2.1
     exFileUnsynced (by decide) (by decide) rfl⟩

/-- C6 counterexample: `filesRouter.delete` reports success even when the
storage removal failed (the error is only logged), so not every upstream
failure is propagated: with the storage removal failing (`false`), the
delete still returns success and removes the database row. -/
theorem claim6_counterexample :
    (filesDelete exDb false "alice" "f1").1 = Except.ok true ∧
    Effect.storageRemove "alice/f1.pdf" ∈ (filesDelete exDb false "alice" "f1").2.2 ∧
    selectFileScoped (filesDelete exDb false "alice" "f1").2.1 "f1" "alice" = none := by
  decide

/-- Every branch of `streamQuestion` that ends without a completed run
yields an error event and never a done event. -/
theorem streamQuestion_error_of_not_normal (db : DB) (o : StreamOracle)
    (input : StreamQuestionInput)
    (h : ¬ (runStreamLoop o.runItems "").2.2 = LoopExit.normal) :
    (∃ m, StreamEvent.error m ∈ (streamQuestion db o input).events) ∧
    (∀ u a, StreamEvent.done u a ∉ (streamQuestion db o input).events) := by
  rcases hc : selectChatScoped db input.chatId input.userId with _ | c
  · rw [streamQuestion_of_no_chat db o input hc]
    exact ⟨⟨"Chat not found", by simp⟩, by simp⟩
  · rcases hf : selectFileById db c.fileId with _ | f
    · rw [streamQuestion_of_no_file db o input c hc hf]
      exact ⟨⟨"File not found", by simp⟩, by simp⟩
    · by_cases hs : optStrTruthy f.openaiFileId = true
      · rw [streamQuestion_of_synced db o input c f hc hf hs,
          streamCore_of_not_normal db o input c h]
        rcases runStreamLoop_error_of_not_normal o.runItems "" h with ⟨m, hm⟩
        refine ⟨⟨m, by simp; exact hm⟩, ?_⟩
        intro u a hmem
        simp at hmem
        exact runStreamLoop_no_done o.runItems "" u a hmem
      · by_cases hd : o.downloadOk = true
        · rw [streamQuestion_of_upload db o input c f hc hf
            (Bool.not_eq_true _ ▸ hs) hd,
            streamCore_of_not_normal _ o input c h]
          rcases runStreamLoop_error_of_not_normal o.runItems "" h with ⟨m, hm⟩
          refine ⟨⟨m, by simp; exact hm⟩, ?_⟩
          intro u a hmem
          simp at hmem
          exact runStreamLoop_no_done o.runItems "" u a hmem
        · rw [streamQuestion_of_download_fail db o input c f hc hf
            (Bool.not_eq_true _ ▸ hs) (Bool.not_eq_true _ ▸ hd)]
          exact ⟨⟨"Failed to download file from storage", by simp⟩, by simp⟩

/-- When the polled run does not complete, `askQuestion` always throws. -/
theorem askQuestion_error_of_incomplete (db : DB) (o : AskOracle)
    (userId chatId question : String) (h : ¬ o.runStatus = "completed") :
    ∃ e, (askQuestion db o userId chatId question).result = Except.error e := by
  rcases hc : selectChatScoped db chatId userId with _ | c
  · rw [askQuestion_of_no_chat db o userId chatId question hc]
    exact ⟨_, rfl⟩
  · rcases hf : selectFileById db c.fileId with _ | f
    · rw [askQuestion_of_no_file db o userId chatId question c hc hf]
      exact ⟨_, rfl⟩
    · by_cases hs : optStrTruthy f.openaiFileId = true
      · rw [askQuestion_of_synced db o userId chatId question c f hc hf hs,
          askCore_of_incomplete db o chatId question c h]
        exact ⟨_, rfl⟩
      · by_cases hd : o.downloadOk = true
        · rw [askQuestion_of_upload db o userId chatId question c f hc hf
            (Bool.not_eq_true _ ▸ hs) hd,
            askCore_of_incomplete _ o chatId question c h]
          exact ⟨_, rfl⟩
        · rw [askQuestion_of_download_fail db o userId chatId question c f hc hf
            (Bool.not_eq_true _ ▸ hs) (Bool.not_eq_true _ ▸ hd)]
          exact ⟨_, rfl⟩

/-- C6 (amended): every upstream failure is propagated to the caller as a
thrown TRPCError or a yielded error event — a failed storage download in
`syncFileToOpenAI`, `askQuestion` or `streamQuestion`, a failed or
throwing run stream, and an uncompleted polled run all surface as errors
and never as success — with one exception: `filesRouter.delete` logs a
failed storage removal, still deletes the database row, and reports
success. -/
theorem claim6_error_propagation (db : DB) (o : SyncOracle) (so : StreamOracle)
    (oa : AskOracle) (input : StreamQuestionInput)
    (userId chatId question fileId : String) (rm : Bool) :
    (∀ f, selectFileScoped db fileId userId = some f →
      optStrTruthy f.openaiFileId = false → o.downloadOk = false →
      syncFileToOpenAI db o userId fileId =
        ⟨Except.error ⟨"INTERNAL_SERVER_ERROR", "Failed to download file from storage"⟩,
         db, [Effect.dbSelectFileScoped fileId userId,
              Effect.storageDownload f.storagePath]⟩) ∧
    (∀ c f, selectChatScoped db input.chatId input.userId = some c →
      selectFileById db c.fileId = some f →
      optStrTruthy f.openaiFileId = false → so.downloadOk = false →
      streamQuestion db so input =
        ⟨[StreamEvent.status "Uploading file to AI...",
          StreamEvent.error "Failed to download file from storage"], db,
         [Effect.dbSelectChat input.chatId input.userId,
          Effect.dbSelectFile c.fileId, Effect.storageDownload f.storagePath]⟩) ∧
    (¬ (runStreamLoop so.runItems "").2.2 = LoopExit.normal →
      (∃ m, StreamEvent.error m ∈ (streamQuestion db so input).events) ∧
      (∀ u a, StreamEvent.done u a ∉ (streamQuestion db so input).events)) ∧
    (¬ oa.runStatus = "completed" →
      ∃ e, (askQuestion db oa userId chatId question).result = Except.error e) ∧
    (∀ f, selectFileScoped db fileId userId = some f →
      filesDelete db rm userId fileId =
        (Except.ok true, deleteFileById db fileId,
         [Effect.dbSelectFileScoped fileId userId,
          Effect.storageRemove f.storagePath, Effect.dbDeleteFile fileId])) := by
  refine ⟨?_, ?_, streamQuestion_error_of_not_normal db so input,
    askQuestion_error_of_incomplete db oa userId chatId question, ?_⟩
  · intro f hs hoid hd
    simp only [syncFileToOpenAI]
    rw [hs]
    simp [hoid, hd]
  · intro c f hc hf hoid hd
    exact streamQuestion_of_download_fail db so input c f hc hf hoid hd
  · intro f hs
    simp only [filesDelete]
    rw [hs]
    simp

/-- Witness for C6 (amended) at concrete inputs: the failed download is
thrown, and the delete with failed storage removal still succeeds. -/
theorem claim6_error_propagation_witness :
    syncFileToOpenAI exDbUnsynced ⟨false, "up1"⟩ "alice" "f1" =
      ⟨Except.error ⟨"INTERNAL_SERVER_ERROR", "Failed to download file from storage"⟩,
       exDbUnsynced, [Effect.dbSelectFileScoped "f1" "alice",
                      Effect.storageDownload "alice/f1.pdf"]⟩ ∧
    filesDelete exDb false "alice" "f1" =
      (Except.ok true, deleteFileById exDb "f1",
       [Effect.dbSelectFileScoped "f1" "alice",
        Effect.storageRemove "alice/f1.pdf", Effect.dbDeleteFile "f1"]) :=
  ⟨(claim6_error_propagation exDbUnsynced ⟨false, "up1"⟩ exStreamOracle exAskOracle
      exInput "alice" "c1" "q" "f1" false).1 exFileUnsynced (by decide) (by decide) rfl,
   (claim6_error_propagation exDb ⟨false, "up1"⟩ exStreamOracle exAskOracle
      exInput "alice" "c1" "q" "f1" false).2.2.2.2 exFileSynced (by decide)⟩

/-- C7 counterexample: `getOrCreateAssistant` stores the created
assistant id in the module-level `cachedAssistantId`, so under the same
(empty) database state a first call issues a provider assistant-create
request while the repeated call issues none — the system does maintain a
cache in mutable program state. -/
theorem claim7_counterexample :
    (getOrCreateAssistant ⟨none⟩ none "asst1").2.2 = [Effect.assistantCreate] ∧
    getOrCreateAssistant ((getOrCreateAssistant ⟨none⟩ none "asst1").2.1) none "asst2" =
      ("asst1", ⟨some "asst1"⟩, []) ∧
    (getOrCreateAssistant ⟨none⟩ none "asst1").2.1 ≠ (⟨none⟩ : AssistantCache) := by
  decide

/-- C7 (amended): the assistant id in `getOrCreateAssistant` is the only
program-state cache: after any call resolves an id, the cache holds that
(non-empty) id and every later call returns it with no provider request;
the database-backed operations memoize nothing — e.g. a
`syncFileToOpenAI` whose download failed leaves the database unchanged
and a repeated call issues exactly the same requests again. -/
theorem claim7_cache_behavior (cache : AssistantCache) (env env' : Option String)
    (createdId createdId' : String) (h : createdId ≠ "") :
    (getOrCreateAssistant cache env createdId).2.1.cachedAssistantId =
      some (getOrCreateAssistant cache env createdId).1 ∧
    (getOrCreateAssistant cache env createdId).1 ≠ "" ∧
    getOrCreateAssistant (getOrCreateAssistant cache env createdId).2.1 env' createdId' =
      ((getOrCreateAssistant cache env createdId).1,
       (getOrCreateAssistant cache env createdId).2.1, []) ∧
    (∀ (db : DB) (so : SyncOracle) (usr fid : String) (f : FileRec),
      selectFileScoped db fid usr = some f →
      optStrTruthy f.openaiFileId = false → so.downloadOk = false →
      (syncFileToOpenAI db so usr fid).db = db ∧
      Effect.storageDownload f.storagePath ∈ (syncFileToOpenAI db so usr fid).trace ∧
      syncFileToOpenAI (syncFileToOpenAI db so usr fid).db so usr fid =
        syncFileToOpenAI db so usr fid) := by
  have hmain : (getOrCreateAssistant cache env createdId).2.1.cachedAssistantId =
      some (getOrCreateAssistant cache env createdId).1 ∧
      (getOrCreateAssistant cache env createdId).1 ≠ "" := by
    by_cases hcache : optStrTruthy cache.cachedAssistantId = true
    · rcases hx : cache.cachedAssistantId with _ | s
      · rw [hx] at hcache
        simp [optStrTruthy] at hcache
      · rw [hx] at hcache
        have hs : s ≠ "" := by simpa [optStrTruthy] using hcache
        simp [getOrCreateAssistant, hx, hcache, hs]
    · have hcache' : optStrTruthy cache.cachedAssistantId = false :=
        Bool.not_eq_true _ ▸ hcache
      by_cases henv : optStrTruthy env = true
      · rcases hx : env with _ | e
        · rw [hx] at henv
          simp [optStrTruthy] at henv
        · rw [hx] at henv
          have hne : e ≠ "" := by simpa [optStrTruthy] using henv
          simp [getOrCreateAssistant, resolveAssistant, hcache', hx, henv, hne]
      · have henv' : optStrTruthy env = false := Bool.not_eq_true _ ▸ henv
        simp [getOrCreateAssistant, resolveAssistant, hcache', henv', h]
  refine ⟨hmain.1, hmain.2, ?_, ?_⟩
  · obtain ⟨hm1, hm2⟩ := hmain
    set r := getOrCreateAssistant cache env createdId with hrdef
    have htruthy : optStrTruthy r.2.1.cachedAssistantId = true := by
      rw [hm1]
      simpa [optStrTruthy] using hm2
    simp only [getOrCreateAssistant, htruthy, if_pos]
    rw [hm1]
    rfl
  · intro db so usr fid f hf hoid hd
    have heq : syncFileToOpenAI db so usr fid =
        ⟨Except.error ⟨"INTERNAL_SERVER_ERROR", "Failed to download file from storage"⟩,
         db, [Effect.dbSelectFileScoped fid usr,
              Effect.storageDownload f.storagePath]⟩ := by
      simp only [syncFileToOpenAI]
      rw [hf]
      simp [hoid, hd]
    have hdb : (syncFileToOpenAI db so usr fid).db = db := by rw [heq]
    refine ⟨hdb, ?_, ?_⟩
    · rw [heq]
      simp
    · rw [hdb]

/-- Witness for C7 (amended) at a concrete cache state and database. -/
theorem claim7_cache_behavior_witness :
    getOrCreateAssistant (getOrCreateAssistant ⟨none⟩ none "asst1").2.1 none "asst2" =
      ("asst1", (getOrCreateAssistant ⟨none⟩ none "asst1").2.1, []) ∧
    syncFileToOpenAI (syncFileToOpenAI exDbUnsynced ⟨false, "up1"⟩ "alice" "f1").db
        ⟨false, "up1"⟩ "alice" "f1" =
      syncFileToOpenAI exDbUnsynced ⟨false, "up1"⟩ "alice" "f1" :=
  ⟨(claim7_cache_behavior ⟨none⟩ none none "asst1" "asst2" (by decide)).2.2.1,
   ((claim7_cache_behavior ⟨none⟩ none none "asst1" "asst2" (by decide)).2.2.2
      exDbUnsynced ⟨false, "up1"⟩ "alice" "f1" exFileUnsynced (by decide) (by decide)
      rfl).2.2⟩

/-- C8 counterexample: with an underlying auth library that would accept
every request, a sign-up without the invitation code is rejected by the
wrapper's `user.create.before` database hook, so the wrapper's outcome
differs from the underlying library's and it does impose a precondition
of its own. -/
theorem claim8_counterexample :
    authHandler libAllOk (AuthRequest.signUp none) ≠
      libAllOk (AuthRequest.signUp none) := by
  decide

/-- C8 (amended): the wrapper delegates sign-in and session requests to
the auth library unchanged, and delegates sign-up too when the request
body carries the invitation code `"xenet.ai"`; a sign-up with any other
invitation code (or none) is rejected with FORBIDDEN
"Invalid invitation code" by the wrapper's database hook. -/
theorem claim8_auth_delegation (lib : AuthRequest → AuthOutcome)
    (code : Option String) :
    authHandler lib AuthRequest.signIn = lib AuthRequest.signIn ∧
    authHandler lib AuthRequest.session = lib AuthRequest.session ∧
    (code = some validInvitationCode →
      authHandler lib (AuthRequest.signUp code) = lib (AuthRequest.signUp code)) ∧
    (code ≠ some validInvitationCode →
      authHandler lib (AuthRequest.signUp code) =
        AuthOutcome.apiError "FORBIDDEN" "Invalid invitation code") := by
  refine ⟨rfl, rfl, ?_, ?_⟩
  · intro h
    simp [authHandler, userCreateBeforeHook, h]
  · intro h
    simp [authHandler, userCreateBeforeHook, h]

/-- Witness for C8 (amended): the valid code delegates, the missing code
is rejected. -/
theorem claim8_auth_delegation_witness :
    authHandler libAllOk (AuthRequest.signUp (some "xenet.ai")) =
      libAllOk (AuthRequest.signUp (some "xenet.ai")) ∧
    authHandler libAllOk (AuthRequest.signUp none) =
      AuthOutcome.apiError "FORBIDDEN" "Invalid invitation code" :=
  ⟨(claim8_auth_delegation libAllOk (some "xenet.ai")).2.2.1 rfl,
   (claim8_auth_delegation libAllOk none).2.2.2 (by decide)⟩

/-- C9: every modelled file and chat operation scopes its lookup or
mutation to the requesting user: when every row with the referenced id
belongs to someone else, the operation returns NOT_FOUND (or yields the
"Chat not found" error event) and leaves the database unchanged. -/
theorem claim9_user_scoping (db : DB) (o : StreamOracle) (oa : AskOracle)
    (so : SyncOracle) (u fid cid name title question : String) (rm : Bool) :
    ((∀ f ∈ db.files, f.id = fid → f.userId ≠ u) →
      filesGet db u fid =
        (Except.error ⟨"NOT_FOUND", "File not found"⟩, db,
         [Effect.dbSelectFileScoped fid u]) ∧
      filesDelete db rm u fid =
        (Except.error ⟨"NOT_FOUND", "File not found"⟩, db,
         [Effect.dbSelectFileScoped fid u]) ∧
      filesRename db u fid name =
        (Except.error ⟨"NOT_FOUND", "File not found"⟩, db,
         [Effect.dbRenameFile fid u]) ∧
      syncFileToOpenAI db so u fid =
        ⟨Except.error ⟨"NOT_FOUND", "File not found"⟩, db,
         [Effect.dbSelectFileScoped fid u]⟩) ∧
    ((∀ c ∈ db.chats, c.id = cid → c.userId ≠ u) →
      chatDelete db u cid =
        (Except.error ⟨"NOT_FOUND", "Chat not found"⟩, db,
         [Effect.dbDeleteChat cid u]) ∧
      chatRename db u cid title =
        (Except.error ⟨"NOT_FOUND", "Chat not found"⟩, db,
         [Effect.dbRenameChat cid u]) ∧
      askQuestion db oa u cid question =
        ⟨Except.error ⟨"NOT_FOUND", "Chat not found"⟩, db,
         [Effect.dbSelectChat cid u]⟩ ∧
      streamQuestion db o ⟨u, cid, question⟩ =
        ⟨[StreamEvent.error "Chat not found"], db,
         [Effect.dbSelectChat cid u]⟩) := by
  constructor
  · intro h
    have hnone : selectFileScoped db fid u = none := by
      apply List.find?_eq_none.mpr
      intro f hf
      simp only [Bool.and_eq_true, beq_iff_eq, not_and]
      intro hid
      exact h f hf hid
    have hfil : db.files.filter (fun f => f.id == fid && f.userId == u) = [] := by
      apply List.filter_eq_nil_iff.mpr
      intro f hf
      simp only [Bool.and_eq_true, beq_iff_eq, not_and]
      intro hid
      exact h f hf hid
    refine ⟨?_, ?_, ?_, ?_⟩
    · simp only [filesGet]
      rw [hnone]
    · simp only [filesDelete]
      rw [hnone]
    · simp [filesRename, renameFileScoped, hfil]
    · simp only [syncFileToOpenAI]
      rw [hnone]
  · intro h
    have hnone : selectChatScoped db cid u = none := by
      apply List.find?_eq_none.mpr
      intro c hc
      simp only [Bool.and_eq_true, beq_iff_eq, not_and]
      intro hid
      exact h c hc hid
    have hfil : db.chats.filter (fun c => c.id == cid && c.userId == u) = [] := by
      apply List.filter_eq_nil_iff.mpr
      intro c hc
      simp only [Bool.and_eq_true, beq_iff_eq, not_and]
      intro hid
      exact h c hc hid
    refine ⟨?_, ?_, ?_, ?_⟩
    · simp [chatDelete, deleteChatScoped, hfil]
    · simp [chatRename, renameChatScoped, hfil]
    · exact askQuestion_of_no_chat db oa u cid question hnone
    · exact streamQuestion_of_no_chat db o ⟨u, cid, question⟩ hnone

/-- Witness for C9: user "bob" touching "alice"'s file and chat gets
NOT_FOUND / the error event with the database unchanged. -/
theorem claim9_user_scoping_witness :
    filesGet exDb "bob" "f1" =
      (Except.error ⟨"NOT_FOUND", "File not found"⟩, exDb,
       [Effect.dbSelectFileScoped "f1" "bob"]) ∧
    streamQuestion exDb exStreamOracle ⟨"bob", "c1", "q"⟩ =
      ⟨[StreamEvent.error "Chat not found"], exDb, [Effect.dbSelectChat "c1" "bob"]⟩ :=
  ⟨((claim9_user_scoping exDb exStreamOracle exAskOracle ⟨true, "up1"⟩
      "bob" "f1" "c1" "n" "t" "q" true).1 (by decide)).1,
   ((claim9_user_scoping exDb exStreamOracle exAskOracle ⟨true, "up1"⟩
      "bob" "f1" "c1" "n" "t" "q" true).2 (by decide)).2.2.2⟩

/-- An uncompleted polled run still leaves the inserted user message in
the database, and only it. -/
theorem askCore_incomplete_db_messages (db : DB) (o : AskOracle)
    (chatId question : String) (c : ChatRec) (h : ¬ o.runStatus = "completed") :
    (askCore db o chatId question c).db.messages =
      db.messages ++ [⟨o.userMessageId, chatId, Role.user, question⟩] := by
  rw [askCore_of_incomplete db o chatId question c h]
  by_cases ht : optStrTruthy c.title = true <;>
    simp [ht, insertMessage, updateChatTitle]

/-- C10: asking a question is not atomic on failure.  If the run fails or
the stream errors after the user message was inserted, the user message
(and the title derived from it, when the chat had none) stays persisted,
no assistant message is inserted, and the outcome is an error (an error
event and no done event for the streaming handler, a thrown
INTERNAL_SERVER_ERROR for the mutation) — so the chat can be left with a
trailing unanswered user message. -/
theorem claim10_not_atomic (db : DB) (o : StreamOracle) (oa : AskOracle)
    (input : StreamQuestionInput) (userId chatId question : String) :
    (∀ c f, selectChatScoped db input.chatId input.userId = some c →
      selectFileById db c.fileId = some f →
      (optStrTruthy f.openaiFileId = true ∨ o.downloadOk = true) →
      ¬ (runStreamLoop o.runItems "").2.2 = LoopExit.normal →
      (⟨o.userMessageId, input.chatId, Role.user, input.question⟩ : MessageRec) ∈
        (streamQuestion db o input).db.messages ∧
      (c.title = none → (streamQuestion db o input).db.chats =
        (updateChatTitle db input.chatId (deriveTitle 30 input.question)).chats) ∧
      ((streamQuestion db o input).db.messages.filter (fun m => m.role == Role.assistant) =
        db.messages.filter (fun m => m.role == Role.assistant)) ∧
      (∃ m, StreamEvent.error m ∈ (streamQuestion db o input).events) ∧
      (∀ u a, StreamEvent.done u a ∉ (streamQuestion db o input).events)) ∧
    (∀ c f, selectChatScoped db chatId userId = some c →
      selectFileById db c.fileId = some f →
      (optStrTruthy f.openaiFileId = true ∨ oa.downloadOk = true) →
      ¬ oa.runStatus = "completed" →
      (⟨oa.userMessageId, chatId, Role.user, question⟩ : MessageRec) ∈
        (askQuestion db oa userId chatId question).db.messages ∧
      (c.title = none → (askQuestion db oa userId chatId question).db.chats =
        (updateChatTitle db chatId (deriveTitle 50 question)).chats) ∧
      ((askQuestion db oa userId chatId question).db.messages.filter
          (fun m => m.role == Role.assistant) =
        db.messages.filter (fun m => m.role == Role.assistant)) ∧
      (askQuestion db oa userId chatId question).result =
        Except.error ⟨"INTERNAL_SERVER_ERROR",
          "Assistant run failed with status: " ++ oa.runStatus⟩) := by
  constructor
  · intro c f hc hf hsync hl
    have hmsgs : (streamQuestion db o input).db.messages =
        db.messages ++ [⟨o.userMessageId, input.chatId, Role.user, input.question⟩] := by
      by_cases hs : optStrTruthy f.openaiFileId = true
      · rw [streamQuestion_of_synced db o input c f hc hf hs]
        exact streamCore_fail_db_messages db o input c (Or.inl hl)
      · rcases hsync with hsync | hd
        · exact absurd hsync hs
        · rw [streamQuestion_of_upload db o input c f hc hf
            (Bool.not_eq_true _ ▸ hs) hd]
          exact streamCore_fail_db_messages
            (updateFileOpenaiId db c.fileId o.uploadedFileId) o input c (Or.inl hl)
    refine ⟨?_, ?_, ?_, (streamQuestion_error_of_not_normal db o input hl).1,
      (streamQuestion_error_of_not_normal db o input hl).2⟩
    · rw [hmsgs]
      simp
    · intro ht
      exact streamQuestion_chats_of_set db o input c f hc hf ht hsync
    · rw [hmsgs]
      simp [List.filter_append]
  · intro c f hc hf hsync hr
    have hmsgs : (askQuestion db oa userId chatId question).db.messages =
        db.messages ++ [⟨oa.userMessageId, chatId, Role.user, question⟩] := by
      by_cases hs : optStrTruthy f.openaiFileId = true
      · rw [askQuestion_of_synced db oa userId chatId question c f hc hf hs]
        exact askCore_incomplete_db_messages db oa chatId question c hr
      · rcases hsync with hsync | hd
        · exact absurd hsync hs
        · rw [askQuestion_of_upload db oa userId chatId question c f hc hf
            (Bool.not_eq_true _ ▸ hs) hd]
          exact askCore_incomplete_db_messages
            (updateFileOpenaiId db c.fileId oa.uploadedFileId) oa chatId question c hr
    have hres : (askQuestion db oa userId chatId question).result =
        Except.error ⟨"INTERNAL_SERVER_ERROR",
          "Assistant run failed with status: " ++ oa.runStatus⟩ := by
      by_cases hs : optStrTruthy f.openaiFileId = true
      · rw [askQuestion_of_synced db oa userId chatId question c f hc hf hs,
          askCore_of_incomplete db oa chatId question c hr]
      · rcases hsync with hsync | hd
        · exact absurd hsync hs
        · rw [askQuestion_of_upload db oa userId chatId question c f hc hf
            (Bool.not_eq_true _ ▸ hs) hd,
            askCore_of_incomplete _ oa chatId question c hr]
    refine ⟨?_, ?_, ?_, hres⟩
    · rw [hmsgs]
      simp
    · intro ht
      exact askQuestion_chats_of_set db oa userId chatId question c f hc hf ht hsync
    · rw [hmsgs]
      simp [List.filter_append]

/-- Witness for C10: a concrete failing run leaves the user message (and
the derived title) persisted with no done event. -/
theorem claim10_not_atomic_witness :
    (⟨"um1", "c1", Role.user, "q"⟩ : MessageRec) ∈
      (streamQuestion exDb exStreamFailOracle exInput).db.messages ∧
    (streamQuestion exDb exStreamFailOracle exInput).db.chats =
      (updateChatTitle exDb "c1" (deriveTitle 30 "q")).chats ∧
    StreamEvent.done "um1" "am1" ∉ (streamQuestion exDb exStreamFailOracle exInput).events :=
  ⟨((claim10_not_atomic exDb exStreamFailOracle exAskFailOracle exInput
      "alice" "c1" "q").1 exChat exFileSynced (by decide) (by decide)
      (Or.inl (by decide)) (by decide)).1,
   ((claim10_not_atomic exDb exStreamFailOracle exAskFailOracle exInput
      "alice" "c1" "q").1 exChat exFileSynced (by decide) (by decide)
      (Or.inl (by decide)) (by decide)).2.1 rfl,
   ((claim10_not_atomic exDb exStreamFailOracle exAskFailOracle exInput
      "alice" "c1" "q").1 exChat exFileSynced (by decide) (by decide)
      (Or.inl (by decide)) (by decide)).2.2.2.2 "um1" "am1"⟩

end Claims

end XQuery
